import Mathlib

/-
  Verification development for the kyra library-inventory back end.

  Shallow embedding of the transactional core: the borrow/return engine
  (borrowService, DB-backed variant), the buy/cancel engine (buyService),
  the wallet ledger (walletService), the restock and reminder job handlers,
  and the job-runner state transitions (jobRunner).

  Modelling conventions:
  - Machine integers and JS numbers are modelled as Nat/Int with explicit
    wrap-around where the source wraps (the advisory-lock hash).
  - Timestamps are Nat milliseconds (JS Date.now()).
  - A Prisma serializable transaction that throws is modelled as
    `Except.error e`: the state is rolled back, so no state is returned.
  - String template keys such as "BORROW:<id>" and "RESTOCK:<bookId>" are
    modelled by the structured type DKey (one constructor per template,
    carrying the interpolated ids); the templates are pairwise
    non-overlapping and injective in their ids, which the structured type
    mirrors exactly.  Borrow activeKey "<userId>:<bookId>" is modelled as
    Option (Nat x Nat); job activeKeys as the structured type JKey.
  - Each user-facing operation also returns a trace of the primitive
    database actions it performed, in source order: advisory-lock
    acquisition, SELECT ... FOR UPDATE, plain reads and plain writes.
-/

namespace Kyra

/-- Movement types of the wallet ledger (MovementType enum). -/
inductive MovementType where
  | BORROW_INCOME
  | BUY_INCOME
  | CANCEL_REFUND
  | RESTOCK_EXPENSE
  | INITIAL_BALANCE
deriving DecidableEq, Repr

/-- Borrow status (BorrowStatus enum). -/
inductive BorrowStatus where
  | ACTIVE
  | RETURNED
deriving DecidableEq, Repr

/-- Purchase status (PurchaseStatus enum). -/
inductive PurchaseStatus where
  | ACTIVE
  | CANCELED
deriving DecidableEq, Repr

/-- Job types (JobType enum). -/
inductive JobType where
  | RESTOCK
  | REMINDER
deriving DecidableEq, Repr

/-- Job status (JobStatus enum). -/
inductive JobStatus where
  | PENDING
  | PROCESSING
  | COMPLETED
  | FAILED
  | CANCELED
deriving DecidableEq, Repr

/-- Simulated email types. -/
inductive EmailType where
  | LOW_STOCK
  | REMINDER
  | MILESTONE
deriving DecidableEq, Repr

/-- Structured dedupe keys, modelling the string templates used by the
source for wallet movements, events and simulated emails.  Each
constructor corresponds to one template; the templates are pairwise
distinguishable strings and injective in the interpolated ids. -/
inductive DKey where
  | borrowK (borrowId : Nat)                       -- "BORROW:<id>"
  | returnK (borrowId : Nat)                       -- "RETURN:<id>"
  | buyK (purchaseId : Nat)                        -- "BUY:<id>"
  | cancelK (purchaseId : Nat)                     -- "CANCEL:<id>"
  | cancelBuyK (purchaseId : Nat)                  -- "CANCEL_BUY:<id>"
  | restockK (jobId : Nat)                         -- "RESTOCK:<jobId>"
  | restockDeliveredK (jobId : Nat)                -- "RESTOCK_DELIVERED:<jobId>"
  | lowStockK (isbn : String) (jobId : Nat)        -- "LOW_STOCK:<isbn>:<jobId>"
  | lowStockEmailK (isbn : String) (jobId : Nat)   -- "LOW_STOCK_EMAIL:<isbn>:<jobId>"
  | restockScheduledK (jobId : Nat)                -- "RESTOCK_SCHEDULED:<jobId>"
  | milestoneK                                     -- "MILESTONE:2000"
  | milestoneEmailK                                -- "MILESTONE_EMAIL:2000"
  | reminderK (borrowId : Nat)                     -- "REMINDER:<borrowId>"
  | reminderSentK (borrowId : Nat)                 -- "REMINDER_SENT:<borrowId>"
deriving DecidableEq, Repr

/-- Structured job activeKeys: "RESTOCK:<bookId>" and "REMINDER:<borrowId>". -/
inductive JKey where
  | restockJob (bookId : Nat)
  | reminderJob (borrowId : Nat)
deriving DecidableEq, Repr

/-- Book row.  Prices in signed integer cents; availableCopies is an Int so
that non-negativity is a real invariant of the operations, not of the type. -/
structure Book where
  id : Nat
  isbn : String
  title : String
  sellPriceCents : Int
  borrowPriceCents : Int
  stockPriceCents : Int
  availableCopies : Int
  seededCopies : Int
deriving DecidableEq, Repr

/-- User row. -/
structure User where
  id : Nat
  email : String
deriving DecidableEq, Repr

/-- Borrow row.  activeKey models the string "<userId>:<bookId>". -/
structure Borrow where
  id : Nat
  userId : Nat
  bookId : Nat
  dueAt : Nat
  returnedAt : Option Nat
  status : BorrowStatus
  activeKey : Option (Nat × Nat)
deriving DecidableEq, Repr

/-- Purchase row. -/
structure Purchase where
  id : Nat
  userId : Nat
  bookId : Nat
  priceCents : Int
  purchasedAt : Nat
  canceledAt : Option Nat
  status : PurchaseStatus
deriving DecidableEq, Repr

/-- Wallet movement row (append-only ledger). -/
structure WalletMovement where
  amountCents : Int
  type : MovementType
  reason : String
  relatedEntity : Option String
  dedupeKey : Option DKey
deriving DecidableEq, Repr

/-- The singleton LibraryWallet row. -/
structure LibraryWallet where
  milestoneReached : Bool
deriving DecidableEq, Repr

/-- Job row.  payloadBookId / payloadBorrowId model the JSON payload fields
read by the restock and reminder handlers. -/
structure Job where
  id : Nat
  type : JobType
  status : JobStatus
  runAt : Nat
  attempts : Nat
  maxAttempts : Nat
  lockedAt : Option Nat
  lastError : Option String
  completedAt : Option Nat
  activeKey : Option JKey
  bookId : Option Nat
  borrowId : Option Nat
  payloadBookId : Option Nat
  payloadBorrowId : Option Nat
deriving DecidableEq, Repr

/-- Event row (append-only audit log). -/
structure EventRec where
  type : String
  userId : Option Nat
  bookId : Option Nat
  borrowId : Option Nat
  purchaseId : Option Nat
  jobId : Option Nat
  dedupeKey : Option DKey
deriving DecidableEq, Repr

/-- Simulated email row. -/
structure EmailRec where
  recipient : String
  subject : String
  type : EmailType
  dedupeKey : DKey
deriving DecidableEq, Repr

/-- The whole database state.  nextId is the id supply for created rows. -/
structure St where
  books : List Book
  users : List User
  borrows : List Borrow
  purchases : List Purchase
  movements : List WalletMovement
  wallet : Option LibraryWallet
  jobs : List Job
  events : List EventRec
  emails : List EmailRec
  nextId : Nat
deriving DecidableEq, Repr

/-- Error codes thrown by the engines (utils/errors.ts subclasses carrying
these code strings). -/
inductive ErrCode where
  | BOOK_NOT_FOUND
  | BORROW_NOT_FOUND
  | PURCHASE_NOT_FOUND
  | NO_COPIES_AVAILABLE
  | BORROW_LIMIT_EXCEEDED
  | BOOK_BUY_LIMIT_EXCEEDED
  | TOTAL_BUY_LIMIT_EXCEEDED
  | CANCELLATION_WINDOW_EXPIRED
deriving DecidableEq, Repr

/-- Primitive database actions, recorded in source order by each
user-facing operation. -/
inductive Action where
  | advisoryLock (key : Nat)
  | selectForUpdate
  | dbRead
  | dbWrite
deriving DecidableEq, Repr

/-- Result of an engine operation: the trace of primitive database actions
it performed, and either an error (transaction rolled back) or the output
together with the committed state. -/
structure Exec (α : Type) where
  trace : List Action
  result : Except ErrCode (α × St)

-- Constants from the source
def MAX_ACTIVE_BORROWS : Nat := 3
def BORROW_DURATION_MS : Nat := 3 * 24 * 60 * 60 * 1000
def LOW_STOCK_THRESHOLD : Int := 1
def WALLET_MILESTONE_CENTS : Int := 200000
def MAX_COPIES_PER_BOOK : Nat := 2
def MAX_TOTAL_COPIES : Nat := 10
def CANCEL_WINDOW_MS : Int := 5 * 60 * 1000
def POLL_INTERVAL_MS : Nat := 5000
def LEASE_TIMEOUT_MS : Nat := 60000
def MAX_BACKOFF_MS : Nat := 3600000
def BASE_BACKOFF_MS : Nat := 60000

/-- Wrap an integer to a signed 32-bit value (the JS `x & x` / `<<`
coercion `ToInt32`). -/
def int32 (n : Int) : Int :=
  let m := n % 4294967296
  if m < 2147483648 then m else m - 4294967296

/-- One step of the djb2-like hash: `hash = (hash << 5) - hash + c` followed
by `hash = hash & hash` (32-bit signed wrap). -/
def hashStep (h : Int) (c : Nat) : Int :=
  int32 (int32 (h * 32) - h + c)

/-- hashTextToInt from borrowService/buyService: fold the characters, then
Math.abs.  (charCodeAt on ASCII email strings coincides with the Unicode
code point used here.) -/
def hashTextToInt (text : String) : Nat :=
  (text.data.foldl (fun h ch => hashStep h ch.toNat) 0).natAbs

-- ## Store helpers (Prisma query shapes used by the engines)

/-- findUnique Book by isbn. -/
def findBook (s : St) (isbn : String) : Option Book :=
  s.books.find? (fun b => decide (b.isbn = isbn))

/-- findUnique User by email. -/
def findUser (s : St) (email : String) : Option User :=
  s.users.find? (fun u => decide (u.email = email))

/-- user.upsert by email: return the existing row, or create one. -/
def upsertUser (s : St) (email : String) : User × St :=
  match findUser s email with
  | some u => (u, s)
  | none =>
      let u : User := { id := s.nextId, email := email }
      (u, { s with users := s.users ++ [u], nextId := s.nextId + 1 })

/-- Predicate of the conditional inventory update:
`WHERE isbn = $1 AND availableCopies >= 1`. -/
def decrementMatches (isbn : String) (b : Book) : Bool :=
  decide (b.isbn = isbn) && decide (1 ≤ b.availableCopies)

/-- `UPDATE Book SET availableCopies = availableCopies - 1 WHERE isbn = $1
AND availableCopies >= 1`, returning the affected-row count and the new
state. -/
def condDecrement (isbn : String) (s : St) : Nat × St :=
  let affected := (s.books.filter (decrementMatches isbn)).length
  let books := s.books.map (fun b =>
    if decrementMatches isbn b then { b with availableCopies := b.availableCopies - 1 } else b)
  (affected, { s with books := books })

/-- `UPDATE Book SET availableCopies = availableCopies + n WHERE isbn = $1`
(unconditional increment used by return). -/
def incrementByIsbn (isbn : String) (n : Int) (s : St) : St :=
  { s with books := s.books.map (fun b =>
      if decide (b.isbn = isbn) then { b with availableCopies := b.availableCopies + n } else b) }

/-- `UPDATE Book SET availableCopies = availableCopies + n WHERE id = $1`
(unconditional increment used by cancel and restock). -/
def incrementById (bookId : Nat) (n : Int) (s : St) : St :=
  { s with books := s.books.map (fun b =>
      if decide (b.id = bookId) then { b with availableCopies := b.availableCopies + n } else b) }

/-- `SELECT COALESCE(SUM(amountCents),0) FROM WalletMovement` (the single
wallet holds every movement). -/
def balanceCents (s : St) : Int :=
  (s.movements.map (fun m => m.amountCents)).sum

-- ## Wallet service (walletService.ts)

/-- Input data for addMovement / addMovementInTransaction. -/
structure MovementData where
  amountCents : Int
  type : MovementType
  reason : String
  relatedEntity : Option String
  dedupeKey : Option DKey
deriving DecidableEq, Repr

/-- Build the inserted row from MovementData. -/
def MovementData.toRow (d : MovementData) : WalletMovement :=
  { amountCents := d.amountCents, type := d.type, reason := d.reason,
    relatedEntity := d.relatedEntity, dedupeKey := d.dedupeKey }

/-- walletService.addMovementInTransaction: if a dedupeKey is provided and a
movement with that key exists, return the existing row and insert nothing;
otherwise insert.  (The catch-branch for a concurrent unique-constraint
violation re-reads the same existing row; in the sequential model the
up-front findUnique covers it.) -/
def addMovementInTransaction (s : St) (d : MovementData) : WalletMovement × St :=
  match d.dedupeKey with
  | some k =>
      match s.movements.find? (fun m => decide (m.dedupeKey = some k)) with
      | some existing => (existing, s)
      | none => (d.toRow, { s with movements := s.movements ++ [d.toRow] })
  | none => (d.toRow, { s with movements := s.movements ++ [d.toRow] })

/-- walletService.addMovement: same body as addMovementInTransaction, run
on the shared client instead of a transaction client. -/
def addMovement (s : St) (d : MovementData) : WalletMovement × St :=
  match d.dedupeKey with
  | some k =>
      match s.movements.find? (fun m => decide (m.dedupeKey = some k)) with
      | some existing => (existing, s)
      | none => (d.toRow, { s with movements := s.movements ++ [d.toRow] })
  | none => (d.toRow, { s with movements := s.movements ++ [d.toRow] })

-- ## Watchers (shared by borrowService and buyService)

/-- checkWalletMilestone: no-op when the wallet is missing or the flag is
already set; otherwise, when the ledger sum exceeds 200000 cents, set the
flag and append the milestone email and event. -/
def checkWalletMilestone (s : St) : List Action × St :=
  match s.wallet with
  | none => ([Action.dbRead], s)
  | some w =>
      if w.milestoneReached then ([Action.dbRead], s)
      else
        let bal := balanceCents s
        if WALLET_MILESTONE_CENTS < bal then
          ([Action.dbRead, Action.dbRead, Action.dbWrite, Action.dbWrite, Action.dbWrite],
           { s with
              wallet := some { milestoneReached := true },
              emails := s.emails ++ [{ recipient := "management@dummy-library.com",
                                       subject := "Wallet Milestone Reached",
                                       type := EmailType.MILESTONE,
                                       dedupeKey := DKey.milestoneK }],
              events := s.events ++ [{ type := "MILESTONE_EMAIL",
                                       userId := none, bookId := none, borrowId := none,
                                       purchaseId := none, jobId := none,
                                       dedupeKey := some DKey.milestoneEmailK }] })
        else ([Action.dbRead, Action.dbRead], s)

/-- scheduleRestockIfNeeded: no-op when a live RESTOCK job for the book
exists; otherwise create the job (runAt = now + 1h), the low-stock email
and the two events. -/
def scheduleRestockIfNeeded (book : Book) (now : Nat) (s : St) : List Action × St :=
  match s.jobs.find? (fun j =>
      decide (j.bookId = some book.id) && decide (j.type = JobType.RESTOCK) && j.activeKey.isSome) with
  | some _ => ([Action.dbRead], s)
  | none =>
      let jobId := s.nextId
      let job : Job :=
        { id := jobId, type := JobType.RESTOCK, status := JobStatus.PENDING,
          runAt := now + 60 * 60 * 1000, attempts := 0, maxAttempts := 10,
          lockedAt := none, lastError := none, completedAt := none,
          activeKey := some (JKey.restockJob book.id), bookId := some book.id,
          borrowId := none, payloadBookId := some book.id, payloadBorrowId := none }
      ([Action.dbRead, Action.dbWrite, Action.dbWrite, Action.dbWrite, Action.dbWrite],
       { s with
          jobs := s.jobs ++ [job],
          nextId := s.nextId + 1,
          emails := s.emails ++ [{ recipient := "supply@library.com",
                                   subject := "Low Stock Alert",
                                   type := EmailType.LOW_STOCK,
                                   dedupeKey := DKey.lowStockK book.isbn jobId }],
          events := s.events ++
            [{ type := "LOW_STOCK_EMAIL", userId := none, bookId := some book.id,
               borrowId := none, purchaseId := none, jobId := some jobId,
               dedupeKey := some (DKey.lowStockEmailK book.isbn jobId) },
             { type := "RESTOCK_SCHEDULED", userId := none, bookId := some book.id,
               borrowId := none, purchaseId := none, jobId := some jobId,
               dedupeKey := some (DKey.restockScheduledK jobId) }] })

-- ## Borrow engine (borrowService.ts, DB-backed variant)

/-- Output of borrowBook / returnBook. -/
structure BorrowOut where
  borrow : Borrow
  isExisting : Bool
deriving DecidableEq, Repr

/-- borrowBook(userEmail, bookIsbn): one serializable transaction.
Advisory lock, user upsert, book lookup, idempotent-return of an existing
active borrow, 3-borrow limit, guarded decrement, borrow insert, ledger
credit, event, reminder job, low-stock check, milestone check. -/
def borrowBook (userEmail bookIsbn : String) (now : Nat) (s : St) : Exec BorrowOut :=
  let lockKey := hashTextToInt userEmail
  let user := (upsertUser s userEmail).1
  let s1 := (upsertUser s userEmail).2
  match findBook s1 bookIsbn with
  | none => ⟨[Action.advisoryLock lockKey, Action.dbWrite, Action.dbRead],
             Except.error ErrCode.BOOK_NOT_FOUND⟩
  | some book =>
    match s1.borrows.find? (fun b =>
        decide (b.userId = user.id) && decide (b.bookId = book.id) && b.activeKey.isSome) with
    | some existingBorrow =>
        ⟨[Action.advisoryLock lockKey, Action.dbWrite, Action.dbRead, Action.dbRead],
         Except.ok ({ borrow := existingBorrow, isExisting := true }, s1)⟩
    | none =>
        let activeBorrows := (s1.borrows.filter (fun b =>
            decide (b.userId = user.id) && b.activeKey.isSome)).length
        if MAX_ACTIVE_BORROWS ≤ activeBorrows then
          ⟨[Action.advisoryLock lockKey, Action.dbWrite, Action.dbRead, Action.dbRead,
            Action.dbRead],
           Except.error ErrCode.BORROW_LIMIT_EXCEEDED⟩
        else
          let affected := (condDecrement bookIsbn s1).1
          let s2 := (condDecrement bookIsbn s1).2
          if affected = 0 then
            ⟨[Action.advisoryLock lockKey, Action.dbWrite, Action.dbRead, Action.dbRead,
              Action.dbRead, Action.dbWrite],
             Except.error ErrCode.NO_COPIES_AVAILABLE⟩
          else
            let dueAt := now + BORROW_DURATION_MS
            let borrowId := s2.nextId
            let borrow : Borrow :=
              { id := borrowId, userId := user.id, bookId := book.id, dueAt := dueAt,
                returnedAt := none, status := BorrowStatus.ACTIVE,
                activeKey := some (user.id, book.id) }
            let s3 := { s2 with borrows := s2.borrows ++ [borrow], nextId := s2.nextId + 1 }
            let s4 := { s3 with movements := s3.movements ++
              [({ amountCents := book.borrowPriceCents, type := MovementType.BORROW_INCOME,
                  reason := "Borrow", relatedEntity := some "borrow",
                  dedupeKey := some (DKey.borrowK borrowId) } : WalletMovement)] }
            let s5 := { s4 with events := s4.events ++
              [({ type := "BORROW", userId := some user.id, bookId := some book.id,
                  borrowId := some borrowId, purchaseId := none, jobId := none,
                  dedupeKey := some (DKey.borrowK borrowId) } : EventRec)] }
            let reminderJobRow : Job :=
              { id := s5.nextId, type := JobType.REMINDER, status := JobStatus.PENDING,
                runAt := dueAt, attempts := 0, maxAttempts := 10,
                lockedAt := none, lastError := none, completedAt := none,
                activeKey := some (JKey.reminderJob borrowId), bookId := none,
                borrowId := some borrowId, payloadBookId := none,
                payloadBorrowId := some borrowId }
            let s6 := { s5 with jobs := s5.jobs ++ [reminderJobRow], nextId := s5.nextId + 1 }
            match findBook s6 bookIsbn with
            | some updatedBook =>
                if updatedBook.availableCopies = LOW_STOCK_THRESHOLD then
                  let s7 := (scheduleRestockIfNeeded book now s6).2
                  ⟨[Action.advisoryLock lockKey, Action.dbWrite, Action.dbRead, Action.dbRead,
                    Action.dbRead, Action.dbWrite, Action.dbWrite, Action.dbWrite,
                    Action.dbWrite, Action.dbWrite, Action.dbRead] ++
                      (scheduleRestockIfNeeded book now s6).1 ++
                      (checkWalletMilestone s7).1,
                   Except.ok ({ borrow := borrow, isExisting := false },
                              (checkWalletMilestone s7).2)⟩
                else
                  ⟨[Action.advisoryLock lockKey, Action.dbWrite, Action.dbRead, Action.dbRead,
                    Action.dbRead, Action.dbWrite, Action.dbWrite, Action.dbWrite,
                    Action.dbWrite, Action.dbWrite, Action.dbRead] ++
                      (checkWalletMilestone s6).1,
                   Except.ok ({ borrow := borrow, isExisting := false },
                              (checkWalletMilestone s6).2)⟩
            | none =>
                ⟨[Action.advisoryLock lockKey, Action.dbWrite, Action.dbRead, Action.dbRead,
                  Action.dbRead, Action.dbWrite, Action.dbWrite, Action.dbWrite,
                  Action.dbWrite, Action.dbWrite, Action.dbRead] ++
                    (checkWalletMilestone s6).1,
                 Except.ok ({ borrow := borrow, isExisting := false },
                            (checkWalletMilestone s6).2)⟩

/-- Pick the RETURNED borrow with the greatest returnedAt
(findFirst ... orderBy returnedAt desc). -/
def mostRecentReturned (l : List Borrow) : Option Borrow :=
  l.foldl (fun acc b =>
    match acc with
    | none => some b
    | some a => if a.returnedAt.getD 0 < b.returnedAt.getD 0 then some b else some a) none

/-- returnBook(userEmail, bookIsbn): advisory lock, user and book lookup,
flip the active borrow to RETURNED, unconditional increment, cancel the
reminder job, RETURN event; idempotent on an already-returned borrow. -/
def returnBook (userEmail bookIsbn : String) (now : Nat) (s : St) : Exec BorrowOut :=
  let lockKey := hashTextToInt userEmail
  match findUser s userEmail with
  | none => ⟨[Action.advisoryLock lockKey, Action.dbRead],
             Except.error ErrCode.BORROW_NOT_FOUND⟩
  | some user =>
  match findBook s bookIsbn with
  | none => ⟨[Action.advisoryLock lockKey, Action.dbRead, Action.dbRead],
             Except.error ErrCode.BOOK_NOT_FOUND⟩
  | some book =>
    match s.borrows.find? (fun b =>
        decide (b.userId = user.id) && decide (b.bookId = book.id) && b.activeKey.isSome) with
    | none =>
        match mostRecentReturned (s.borrows.filter (fun b =>
            decide (b.userId = user.id) && decide (b.bookId = book.id) &&
            decide (b.status = BorrowStatus.RETURNED))) with
        | some returnedBorrow =>
            ⟨[Action.advisoryLock lockKey, Action.dbRead, Action.dbRead, Action.dbRead,
              Action.dbRead],
             Except.ok ({ borrow := returnedBorrow, isExisting := true }, s)⟩
        | none =>
            ⟨[Action.advisoryLock lockKey, Action.dbRead, Action.dbRead, Action.dbRead,
              Action.dbRead],
             Except.error ErrCode.BORROW_NOT_FOUND⟩
    | some activeBorrow =>
        let updatedBorrow := { activeBorrow with
          activeKey := (none : Option (Nat × Nat)), returnedAt := some now,
          status := BorrowStatus.RETURNED }
        let s1 := { s with borrows := s.borrows.map (fun b =>
          if decide (b.id = activeBorrow.id) then
            { b with activeKey := (none : Option (Nat × Nat)), returnedAt := some now,
                     status := BorrowStatus.RETURNED }
          else b) }
        let s2 := incrementByIsbn bookIsbn 1 s1
        let s3 := { s2 with jobs := s2.jobs.map (fun (j : Job) =>
          if decide (j.borrowId = some activeBorrow.id) && decide (j.type = JobType.REMINDER)
              && j.activeKey.isSome then
            { j with status := JobStatus.CANCELED, activeKey := (none : Option JKey) }
          else j) }
        let s4 := { s3 with events := s3.events ++
          [({ type := "RETURN", userId := some user.id, bookId := some book.id,
              borrowId := some activeBorrow.id, purchaseId := none, jobId := none,
              dedupeKey := some (DKey.returnK activeBorrow.id) } : EventRec)] }
        ⟨[Action.advisoryLock lockKey, Action.dbRead, Action.dbRead, Action.dbRead,
          Action.dbWrite, Action.dbWrite, Action.dbWrite, Action.dbWrite],
         Except.ok ({ borrow := updatedBorrow, isExisting := false }, s4)⟩

-- ## Purchase engine (buyService.ts)

/-- Output of buyBook / cancelPurchase. -/
structure BuyOut where
  purchase : Purchase
  isExisting : Bool
deriving DecidableEq, Repr

/-- buyBook(userEmail, bookIsbn): advisory lock, user upsert, book lookup,
per-book limit (2 ACTIVE), total limit (10 ACTIVE), guarded decrement,
purchase insert, ledger credit, event, low-stock check, milestone check. -/
def buyBook (userEmail bookIsbn : String) (now : Nat) (s : St) : Exec BuyOut :=
  let lockKey := hashTextToInt userEmail
  let user := (upsertUser s userEmail).1
  let s1 := (upsertUser s userEmail).2
  match findBook s1 bookIsbn with
  | none => ⟨[Action.advisoryLock lockKey, Action.dbWrite, Action.dbRead],
             Except.error ErrCode.BOOK_NOT_FOUND⟩
  | some book =>
    let bookPurchases := (s1.purchases.filter (fun p =>
        decide (p.userId = user.id) && decide (p.bookId = book.id) &&
        decide (p.status = PurchaseStatus.ACTIVE))).length
    if MAX_COPIES_PER_BOOK ≤ bookPurchases then
      ⟨[Action.advisoryLock lockKey, Action.dbWrite, Action.dbRead, Action.dbRead],
       Except.error ErrCode.BOOK_BUY_LIMIT_EXCEEDED⟩
    else
      let totalPurchases := (s1.purchases.filter (fun p =>
          decide (p.userId = user.id) && decide (p.status = PurchaseStatus.ACTIVE))).length
      if MAX_TOTAL_COPIES ≤ totalPurchases then
        ⟨[Action.advisoryLock lockKey, Action.dbWrite, Action.dbRead, Action.dbRead,
          Action.dbRead],
         Except.error ErrCode.TOTAL_BUY_LIMIT_EXCEEDED⟩
      else
        let affected := (condDecrement bookIsbn s1).1
        let s2 := (condDecrement bookIsbn s1).2
        if affected = 0 then
          ⟨[Action.advisoryLock lockKey, Action.dbWrite, Action.dbRead, Action.dbRead,
            Action.dbRead, Action.dbWrite],
           Except.error ErrCode.NO_COPIES_AVAILABLE⟩
        else
          let purchaseId := s2.nextId
          let purchase : Purchase :=
            { id := purchaseId, userId := user.id, bookId := book.id,
              priceCents := book.sellPriceCents, purchasedAt := now,
              canceledAt := none, status := PurchaseStatus.ACTIVE }
          let s3 := { s2 with purchases := s2.purchases ++ [purchase], nextId := s2.nextId + 1 }
          let s4 := { s3 with movements := s3.movements ++
            [({ amountCents := book.sellPriceCents, type := MovementType.BUY_INCOME,
                reason := "Buy", relatedEntity := some "purchase",
                dedupeKey := some (DKey.buyK purchaseId) } : WalletMovement)] }
          let s5 := { s4 with events := s4.events ++
            [({ type := "BUY", userId := some user.id, bookId := some book.id,
                borrowId := none, purchaseId := some purchaseId, jobId := none,
                dedupeKey := some (DKey.buyK purchaseId) } : EventRec)] }
          match findBook s5 bookIsbn with
          | some updatedBook =>
              if updatedBook.availableCopies = LOW_STOCK_THRESHOLD then
                let s6 := (scheduleRestockIfNeeded book now s5).2
                ⟨[Action.advisoryLock lockKey, Action.dbWrite, Action.dbRead, Action.dbRead,
                  Action.dbRead, Action.dbWrite, Action.dbWrite, Action.dbWrite,
                  Action.dbWrite, Action.dbRead] ++
                    (scheduleRestockIfNeeded book now s5).1 ++
                    (checkWalletMilestone s6).1,
                 Except.ok ({ purchase := purchase, isExisting := false },
                            (checkWalletMilestone s6).2)⟩
              else
                ⟨[Action.advisoryLock lockKey, Action.dbWrite, Action.dbRead, Action.dbRead,
                  Action.dbRead, Action.dbWrite, Action.dbWrite, Action.dbWrite,
                  Action.dbWrite, Action.dbRead] ++
                    (checkWalletMilestone s5).1,
                 Except.ok ({ purchase := purchase, isExisting := false },
                            (checkWalletMilestone s5).2)⟩
          | none =>
              ⟨[Action.advisoryLock lockKey, Action.dbWrite, Action.dbRead, Action.dbRead,
                Action.dbRead, Action.dbWrite, Action.dbWrite, Action.dbWrite,
                Action.dbWrite, Action.dbRead] ++
                  (checkWalletMilestone s5).1,
               Except.ok ({ purchase := purchase, isExisting := false },
                          (checkWalletMilestone s5).2)⟩

/-- cancelPurchase(userEmail, purchaseId): one serializable transaction with
a row-level SELECT ... FOR UPDATE on the purchase.  Note: no advisory lock
is acquired here.  Idempotent on an already-CANCELED purchase; enforces the
5-minute window; refunds, increments inventory and records the event. -/
def cancelPurchase (userEmail : String) (purchaseId : Nat) (now : Nat) (s : St) :
    Exec BuyOut :=
  match findUser s userEmail with
  | none => ⟨[Action.dbRead], Except.error ErrCode.PURCHASE_NOT_FOUND⟩
  | some user =>
  match s.purchases.find? (fun p =>
      decide (p.id = purchaseId) && decide (p.userId = user.id)) with
  | none => ⟨[Action.dbRead, Action.selectForUpdate],
             Except.error ErrCode.PURCHASE_NOT_FOUND⟩
  | some purchase =>
    if purchase.status = PurchaseStatus.CANCELED then
      match s.purchases.find? (fun p => decide (p.id = purchaseId)) with
      | some existingPurchase =>
          ⟨[Action.dbRead, Action.selectForUpdate, Action.dbRead],
           Except.ok ({ purchase := existingPurchase, isExisting := true }, s)⟩
      | none =>
          -- unreachable: the FOR UPDATE select already found a row with this id
          ⟨[Action.dbRead, Action.selectForUpdate, Action.dbRead],
           Except.error ErrCode.PURCHASE_NOT_FOUND⟩
    else
      if CANCEL_WINDOW_MS < (now : Int) - (purchase.purchasedAt : Int) then
        ⟨[Action.dbRead, Action.selectForUpdate],
         Except.error ErrCode.CANCELLATION_WINDOW_EXPIRED⟩
      else
        match s.books.find? (fun b => decide (b.id = purchase.bookId)) with
        | none => ⟨[Action.dbRead, Action.selectForUpdate, Action.dbRead],
                   Except.error ErrCode.BOOK_NOT_FOUND⟩
        | some _book =>
            let canceledPurchase := { purchase with
              status := PurchaseStatus.CANCELED, canceledAt := some now }
            let s1 := { s with purchases := s.purchases.map (fun (p : Purchase) =>
              if decide (p.id = purchaseId) then
                { p with status := PurchaseStatus.CANCELED, canceledAt := some now }
              else p) }
            let s2 := { s1 with movements := s1.movements ++
              [({ amountCents := -purchase.priceCents, type := MovementType.CANCEL_REFUND,
                  reason := "Cancel", relatedEntity := some "purchase",
                  dedupeKey := some (DKey.cancelK purchase.id) } : WalletMovement)] }
            let s3 := incrementById purchase.bookId 1 s2
            let s4 := { s3 with events := s3.events ++
              [({ type := "CANCEL_BUY", userId := some user.id,
                  bookId := some purchase.bookId,
                  borrowId := none, purchaseId := some purchase.id, jobId := none,
                  dedupeKey := some (DKey.cancelBuyK purchase.id) } : EventRec)] }
            ⟨[Action.dbRead, Action.selectForUpdate, Action.dbRead, Action.dbWrite,
              Action.dbWrite, Action.dbWrite, Action.dbWrite],
             Except.ok ({ purchase := canceledPurchase, isExisting := false }, s4)⟩

-- ## Job handlers (restockJob.ts, reminderJob.ts)

/-- Error raised by the restock handler when the wallet cannot pay
(InsufficientFundsError: triggers runner retry with backoff). -/
structure InsufficientFunds where
  requiredCents : Int
  availableCents : Int
deriving DecidableEq, Repr

/-- handleRestockJob: load the book from the payload (missing book is a
no-op success), compute needed = seededCopies - availableCopies (<= 0 is a
no-op success), check the wallet balance, debit with dedupe key
RESTOCK:<jobId>, increment inventory by needed, record the event. -/
def handleRestockJob (job : Job) (s : St) : Except InsufficientFunds St :=
  match job.payloadBookId with
  | none => Except.ok s
  | some bookId =>
    match s.books.find? (fun b => decide (b.id = bookId)) with
    | none => Except.ok s
    | some book =>
        let needed := book.seededCopies - book.availableCopies
        if needed ≤ 0 then Except.ok s
        else
          let totalCostCents := needed * book.stockPriceCents
          let bal := balanceCents s
          if bal < totalCostCents then
            Except.error { requiredCents := totalCostCents, availableCents := bal }
          else
            let s1 := (addMovementInTransaction s
                { amountCents := -totalCostCents, type := MovementType.RESTOCK_EXPENSE,
                  reason := "Restock", relatedEntity := some "job",
                  dedupeKey := some (DKey.restockK job.id) }).2
            let s2 := incrementById bookId needed s1
            let s3 := { s2 with events := s2.events ++
              [{ type := "RESTOCK_DELIVERED", userId := none, bookId := some book.id,
                 borrowId := none, purchaseId := none, jobId := some job.id,
                 dedupeKey := some (DKey.restockDeliveredK job.id) }] }
            Except.ok s3

/-- handleReminderJob: no-op when the borrow is missing or no longer
active, or when the reminder email already exists; otherwise append the
email (dedupe REMINDER:<borrowId>) and the REMINDER_SENT event. -/
def handleReminderJob (job : Job) (s : St) : St :=
  match job.payloadBorrowId with
  | none => s
  | some borrowId =>
    match s.borrows.find? (fun b => decide (b.id = borrowId)) with
    | none => s
    | some borrow =>
        if borrow.activeKey.isNone then s
        else
          match s.emails.find? (fun e => decide (e.dedupeKey = DKey.reminderK borrowId)) with
          | some _ => s
          | none =>
              { s with
                emails := s.emails ++ [{ recipient := "user",
                                         subject := "Reminder",
                                         type := EmailType.REMINDER,
                                         dedupeKey := DKey.reminderK borrowId }],
                events := s.events ++
                  [{ type := "REMINDER_SENT", userId := some borrow.userId,
                     bookId := some borrow.bookId, borrowId := some borrow.id,
                     purchaseId := none, jobId := some job.id,
                     dedupeKey := some (DKey.reminderSentK borrowId) }] }

-- ## Job runner (jobRunner.ts)

/-- calculateBackoff: now + min(BASE * 2^(attempts-1), MAX) milliseconds.
The runner only calls this with attempts >= 1 (post-claim counter). -/
def calculateBackoff (attempts : Nat) (now : Nat) : Nat :=
  now + min (BASE_BACKOFF_MS * 2 ^ (attempts - 1)) MAX_BACKOFF_MS

/-- The WHERE clause of the atomic claim UPDATE: live job, and PENDING or
PROCESSING with an expired lease. -/
def claimCondition (now : Nat) (j : Job) : Bool :=
  j.activeKey.isSome &&
    (decide (j.status = JobStatus.PENDING) ||
     (decide (j.status = JobStatus.PROCESSING) &&
      match j.lockedAt with
      | some l => decide (l < now - LEASE_TIMEOUT_MS)
      | none => false))

/-- The atomic claim step: when the condition holds, set PROCESSING, take
the lease and bump attempts; otherwise zero rows are affected. -/
def claimJob (now : Nat) (j : Job) : Option Job :=
  if claimCondition now j then
    some { j with status := JobStatus.PROCESSING, lockedAt := some now,
                  attempts := j.attempts + 1 }
  else none

/-- Handler success: COMPLETED, activeKey cleared, completedAt set,
lastError cleared. -/
def completeJobUpdate (now : Nat) (j : Job) : Job :=
  { j with status := JobStatus.COMPLETED, activeKey := none,
           completedAt := some now, lastError := none }

/-- markJobFailed: FAILED, activeKey cleared on the terminal state. -/
def failJobUpdate (now : Nat) (err : String) (j : Job) : Job :=
  { j with status := JobStatus.FAILED, activeKey := none,
           lastError := some err, completedAt := some now }

/-- Retryable failure: back to PENDING, activeKey preserved, lease
released, runAt pushed by the exponential backoff. -/
def retryJobUpdate (now : Nat) (err : String) (j : Job) : Job :=
  { j with status := JobStatus.PENDING, lastError := some err,
           runAt := calculateBackoff j.attempts now, lockedAt := none }

/-- The failure branch of processJob: attempts exhausted goes terminal,
otherwise reschedule with backoff. -/
def handleFailureUpdate (now : Nat) (err : String) (j : Job) : Job :=
  if j.maxAttempts ≤ j.attempts then failJobUpdate now err j
  else retryJobUpdate now err j

/-- Replace the job row with the given id (prisma.job.update WHERE id). -/
def updateJobRow (jobId : Nat) (f : Job → Job) (s : St) : St :=
  { s with jobs := s.jobs.map (fun j => if decide (j.id = jobId) then f j else j) }

/-- The atomic claim UPDATE as a whole-state transition
(updateMany WHERE id = $1 AND claim condition). -/
def claimApply (now : Nat) (jobId : Nat) (s : St) : St :=
  { s with jobs := s.jobs.map (fun j =>
      if decide (j.id = jobId) && claimCondition now j then
        { j with status := JobStatus.PROCESSING, lockedAt := some now,
                 attempts := j.attempts + 1 }
      else j) }

-- ## System step relation

/-- One committed transition of the system: a successful engine
transaction, a successful handler transaction, or one of the job-runner
row updates.  Failed transactions roll back and do not move the state. -/
inductive Step : St → St → Prop where
  | borrow (userEmail bookIsbn : String) (now : Nat) (out : BorrowOut) (s s' : St) :
      (borrowBook userEmail bookIsbn now s).result = Except.ok (out, s') → Step s s'
  | returnB (userEmail bookIsbn : String) (now : Nat) (out : BorrowOut) (s s' : St) :
      (returnBook userEmail bookIsbn now s).result = Except.ok (out, s') → Step s s'
  | buy (userEmail bookIsbn : String) (now : Nat) (out : BuyOut) (s s' : St) :
      (buyBook userEmail bookIsbn now s).result = Except.ok (out, s') → Step s s'
  | cancel (userEmail : String) (purchaseId now : Nat) (out : BuyOut) (s s' : St) :
      (cancelPurchase userEmail purchaseId now s).result = Except.ok (out, s') → Step s s'
  | restock (job : Job) (s s' : St) :
      handleRestockJob job s = Except.ok s' → Step s s'
  | reminder (job : Job) (s : St) : Step s (handleReminderJob job s)
  | jobClaim (now jobId : Nat) (s : St) : Step s (claimApply now jobId s)
  | jobComplete (now jobId : Nat) (s : St) :
      Step s (updateJobRow jobId (completeJobUpdate now) s)
  | jobFail (now : Nat) (err : String) (jobId : Nat) (s : St) :
      Step s (updateJobRow jobId (failJobUpdate now err) s)
  | jobRetry (now : Nat) (err : String) (jobId : Nat) (s : St) :
      Step s (updateJobRow jobId (retryJobUpdate now err) s)

/-- States reachable from s0 by committed transitions. -/
inductive Reach (s0 : St) : St → Prop where
  | refl : Reach s0 s0
  | tail {s s' : St} : Reach s0 s → Step s s' → Reach s0 s'

-- ## Invariants

/-- Every book row has non-negative inventory. -/
def BooksNonneg (s : St) : Prop := ∀ b ∈ s.books, 0 ≤ b.availableCopies

/-- The number of live (activeKey non-null) borrows of a user, exactly the
count taken by the borrow limit check. -/
def activeBorrowCountU (s : St) (uid : Nat) : Nat :=
  (s.borrows.filter (fun b => decide (b.userId = uid) && b.activeKey.isSome)).length

/-- No user holds more than MAX_ACTIVE_BORROWS live borrows. -/
def BorrowLimitInv (s : St) : Prop :=
  ∀ uid : Nat, activeBorrowCountU s uid ≤ MAX_ACTIVE_BORROWS

/-- The milestoneReached flag of the singleton wallet (false when the
wallet row is missing). -/
def milestoneFlag (s : St) : Bool :=
  match s.wallet with
  | some w => w.milestoneReached
  | none => false

/-- activeKey is non-null exactly while the job is schedulable. -/
def JobInv (j : Job) : Prop :=
  j.activeKey.isSome = true ↔ (j.status = JobStatus.PENDING ∨ j.status = JobStatus.PROCESSING)

/-- Does a trace contain an advisory-lock acquisition? -/
def hasAdvisoryLock (t : List Action) : Bool :=
  t.any (fun a => match a with
    | Action.advisoryLock _ => true
    | _ => false)

-- ## Concrete fixtures used to evaluate the operations on closed inputs

/-- A book with no copies left. -/
def bookEmpty : Book :=
  { id := 1, isbn := "isbn-1", title := "T1", sellPriceCents := 500,
    borrowPriceCents := 100, stockPriceCents := 50, availableCopies := 0,
    seededCopies := 5 }

/-- A book below its seeded level. -/
def bookLow : Book :=
  { id := 1, isbn := "isbn-1", title := "T1", sellPriceCents := 500,
    borrowPriceCents := 100, stockPriceCents := 100, availableCopies := 3,
    seededCopies := 10 }

def aliceUser : User := { id := 2, email := "alice@example.com" }

def emptyWallet : Option LibraryWallet := some { milestoneReached := false }

/-- A state whose only book is out of stock. -/
def stNoCopies : St :=
  { books := [bookEmpty], users := [aliceUser], borrows := [], purchases := [],
    movements := [], wallet := emptyWallet, jobs := [], events := [], emails := [],
    nextId := 10 }

/-- A live borrow row of aliceUser for the given book id. -/
def mkActiveBorrow (bid bookId : Nat) : Borrow :=
  { id := bid, userId := aliceUser.id, bookId := bookId, dueAt := 1000,
    returnedAt := none, status := BorrowStatus.ACTIVE,
    activeKey := some (aliceUser.id, bookId) }

/-- aliceUser already holds three live borrows of other books; the only
book in stock is book 1. -/
def stAtLimit : St :=
  { books := [{ bookEmpty with availableCopies := 4 }], users := [aliceUser],
    borrows := [mkActiveBorrow 21 11, mkActiveBorrow 22 12, mkActiveBorrow 23 13],
    purchases := [], movements := [], wallet := emptyWallet, jobs := [],
    events := [], emails := [], nextId := 30 }

/-- aliceUser holds three live borrows, one of them of book 1 itself. -/
def stHasActive : St :=
  { books := [{ bookEmpty with availableCopies := 4 }], users := [aliceUser],
    borrows := [mkActiveBorrow 21 11, mkActiveBorrow 24 1, mkActiveBorrow 23 13],
    purchases := [], movements := [], wallet := emptyWallet, jobs := [],
    events := [], emails := [], nextId := 30 }

/-- An ACTIVE purchase of book 1 by aliceUser made at time 0. -/
def freshPurchase : Purchase :=
  { id := 3, userId := aliceUser.id, bookId := 1, priceCents := 500,
    purchasedAt := 0, canceledAt := none, status := PurchaseStatus.ACTIVE }

/-- A state with one ACTIVE purchase, used for cancel scenarios. -/
def stWithPurchase : St :=
  { books := [{ bookEmpty with availableCopies := 4 }], users := [aliceUser],
    borrows := [], purchases := [freshPurchase],
    movements := [], wallet := emptyWallet, jobs := [], events := [], emails := [],
    nextId := 40 }

/-- The purchase after cancellation. -/
def canceledPurchase : Purchase :=
  { freshPurchase with status := PurchaseStatus.CANCELED, canceledAt := some 1 }

/-- The same state with the purchase already CANCELED. -/
def stCanceled : St :=
  { stWithPurchase with purchases := [canceledPurchase] }

/-- A wallet movement funding the ledger with the given amount. -/
def fundMovement (amount : Int) : WalletMovement :=
  { amountCents := amount, type := MovementType.INITIAL_BALANCE,
    reason := "Initial", relatedEntity := none, dedupeKey := none }

/-- A due restock job for book 1. -/
def restockJobRow : Job :=
  { id := 7, type := JobType.RESTOCK, status := JobStatus.PENDING, runAt := 0,
    attempts := 0, maxAttempts := 10, lockedAt := none, lastError := none,
    completedAt := none, activeKey := some (JKey.restockJob 1), bookId := some 1,
    borrowId := none, payloadBookId := some 1, payloadBorrowId := none }

/-- Restock scenario: availableCopies 3 of 10 seeded, stock price 100,
wallet funded with exactly the 700 cents needed. -/
def stRestock : St :=
  { books := [bookLow], users := [], borrows := [], purchases := [],
    movements := [fundMovement 700], wallet := emptyWallet,
    jobs := [restockJobRow], events := [], emails := [], nextId := 50 }

/-- The same scenario with only 600 cents in the wallet. -/
def stRestockPoor : St := { stRestock with movements := [fundMovement 600] }

/-- A state whose only book already sits at its seeded level. -/
def stFull : St :=
  { stNoCopies with books := [{ bookEmpty with availableCopies := 5 }] }

/-- A state whose wallet flag is already set. -/
def stFlagged : St :=
  { stNoCopies with wallet := some { milestoneReached := true } }

/-- A state with the flag unset and a ledger above the milestone. -/
def stRich : St :=
  { stNoCopies with movements := [fundMovement 200001] }

/-- A ledger whose only movement carries dedupe key BUY:5. -/
def storedMovement : WalletMovement :=
  { amountCents := 500, type := MovementType.BUY_INCOME, reason := "Buy",
    relatedEntity := some "purchase", dedupeKey := some (DKey.buyK 5) }

def stLedger : St := { stNoCopies with movements := [storedMovement] }

/-- A replay of BUY:5 with a different amount, type and reason. -/
def replayData : MovementData :=
  { amountCents := 999, type := MovementType.CANCEL_REFUND, reason := "Other",
    relatedEntity := none, dedupeKey := some (DKey.buyK 5) }

/-- A claimable PENDING job and its claimed image. -/
def pendingJob : Job :=
  { id := 9, type := JobType.REMINDER, status := JobStatus.PENDING, runAt := 0,
    attempts := 0, maxAttempts := 10, lockedAt := none, lastError := none,
    completedAt := none, activeKey := some (JKey.reminderJob 4), bookId := none,
    borrowId := some 4, payloadBookId := none, payloadBorrowId := some 4 }

def claimedJob : Job :=
  { pendingJob with
    status := JobStatus.PROCESSING, lockedAt := some 100,
    attempts := 1 }

-- ## Frame lemmas for the helper operations

theorem upsertUser_frame (s : St) (e : String) :
    (upsertUser s e).2.books = s.books ∧ (upsertUser s e).2.borrows = s.borrows ∧
    (upsertUser s e).2.purchases = s.purchases ∧
    (upsertUser s e).2.movements = s.movements ∧
    (upsertUser s e).2.wallet = s.wallet ∧ (upsertUser s e).2.jobs = s.jobs ∧
    (upsertUser s e).2.events = s.events ∧ (upsertUser s e).2.emails = s.emails := by
  unfold upsertUser
  split <;> simp

theorem condDecrement_frame (i : String) (s : St) :
    (condDecrement i s).2.borrows = s.borrows ∧
    (condDecrement i s).2.purchases = s.purchases ∧
    (condDecrement i s).2.movements = s.movements ∧
    (condDecrement i s).2.wallet = s.wallet ∧ (condDecrement i s).2.jobs = s.jobs ∧
    (condDecrement i s).2.events = s.events ∧ (condDecrement i s).2.emails = s.emails := by
  unfold condDecrement
  simp

theorem incrementByIsbn_frame (i : String) (n : Int) (s : St) :
    (incrementByIsbn i n s).borrows = s.borrows ∧
    (incrementByIsbn i n s).purchases = s.purchases ∧
    (incrementByIsbn i n s).movements = s.movements ∧
    (incrementByIsbn i n s).wallet = s.wallet ∧ (incrementByIsbn i n s).jobs = s.jobs ∧
    (incrementByIsbn i n s).events = s.events ∧ (incrementByIsbn i n s).emails = s.emails := by
  unfold incrementByIsbn
  simp

theorem incrementById_frame (bid : Nat) (n : Int) (s : St) :
    (incrementById bid n s).borrows = s.borrows ∧
    (incrementById bid n s).purchases = s.purchases ∧
    (incrementById bid n s).movements = s.movements ∧
    (incrementById bid n s).wallet = s.wallet ∧ (incrementById bid n s).jobs = s.jobs ∧
    (incrementById bid n s).events = s.events ∧ (incrementById bid n s).emails = s.emails := by
  unfold incrementById
  simp

theorem checkWalletMilestone_frame (s : St) :
    (checkWalletMilestone s).2.books = s.books ∧
    (checkWalletMilestone s).2.borrows = s.borrows ∧
    (checkWalletMilestone s).2.purchases = s.purchases ∧
    (checkWalletMilestone s).2.movements = s.movements ∧
    (checkWalletMilestone s).2.jobs = s.jobs := by
  unfold checkWalletMilestone
  split
  · simp
  · split
    · simp
    · dsimp only
      split <;> simp

theorem scheduleRestockIfNeeded_frame (b : Book) (now : Nat) (s : St) :
    (scheduleRestockIfNeeded b now s).2.books = s.books ∧
    (scheduleRestockIfNeeded b now s).2.borrows = s.borrows ∧
    (scheduleRestockIfNeeded b now s).2.purchases = s.purchases ∧
    (scheduleRestockIfNeeded b now s).2.movements = s.movements ∧
    (scheduleRestockIfNeeded b now s).2.wallet = s.wallet := by
  unfold scheduleRestockIfNeeded
  split <;> simp

theorem addMovementInTransaction_frame (s : St) (d : MovementData) :
    (addMovementInTransaction s d).2.books = s.books ∧
    (addMovementInTransaction s d).2.borrows = s.borrows ∧
    (addMovementInTransaction s d).2.purchases = s.purchases ∧
    (addMovementInTransaction s d).2.wallet = s.wallet ∧
    (addMovementInTransaction s d).2.jobs = s.jobs := by
  unfold addMovementInTransaction
  split <;> (try split) <;> simp

/-- checkWalletMilestone is a no-op when the flag is already set. -/
theorem checkWalletMilestone_noop (s : St) (h : milestoneFlag s = true) :
    (checkWalletMilestone s).2 = s := by
  unfold checkWalletMilestone
  unfold milestoneFlag at h
  split <;> simp_all

/-- checkWalletMilestone never clears the flag. -/
theorem checkWalletMilestone_mono (s : St) (h : milestoneFlag s = true) :
    milestoneFlag (checkWalletMilestone s).2 = true := by
  rw [checkWalletMilestone_noop s h]
  exact h

-- ## Preservation of non-negative inventory

theorem booksNonneg_of_eq {s t : St} (h : t.books = s.books) (hs : BooksNonneg s) :
    BooksNonneg t := by
  unfold BooksNonneg at *
  rw [h]
  exact hs

/-- The guarded decrement never drives a copy count negative: the WHERE
clause requires availableCopies >= 1 on every row it touches. -/
theorem condDecrement_nonneg (i : String) (s : St) (hs : BooksNonneg s) :
    BooksNonneg (condDecrement i s).2 := by
  intro b hb
  unfold condDecrement at hb
  simp only [List.mem_map] at hb
  obtain ⟨a, ha, rfl⟩ := hb
  by_cases hm : decrementMatches i a = true
  · rw [if_pos hm]
    have h1 : 1 ≤ a.availableCopies := by
      unfold decrementMatches at hm
      simp only [Bool.and_eq_true, decide_eq_true_eq] at hm
      exact hm.2
    dsimp only
    omega
  · rw [if_neg hm]
    exact hs a ha

theorem incrementByIsbn_nonneg (i : String) (n : Int) (s : St) (hn : 0 ≤ n)
    (hs : BooksNonneg s) : BooksNonneg (incrementByIsbn i n s) := by
  intro b hb
  unfold incrementByIsbn at hb
  simp only [List.mem_map] at hb
  obtain ⟨a, ha, rfl⟩ := hb
  have := hs a ha
  split <;> simp <;> omega

theorem incrementById_nonneg (bid : Nat) (n : Int) (s : St) (hn : 0 ≤ n)
    (hs : BooksNonneg s) : BooksNonneg (incrementById bid n s) := by
  intro b hb
  unfold incrementById at hb
  simp only [List.mem_map] at hb
  obtain ⟨a, ha, rfl⟩ := hb
  have := hs a ha
  split <;> simp <;> omega

/-- A committed borrow leaves every copy count non-negative. -/
theorem borrowBook_nonneg (e i : String) (now : Nat) (s : St) (out : BorrowOut) (s' : St)
    (h : (borrowBook e i now s).result = Except.ok (out, s')) (hs : BooksNonneg s) :
    BooksNonneg s' := by
  have hs1 : BooksNonneg (upsertUser s e).2 :=
    booksNonneg_of_eq (upsertUser_frame s e).1 hs
  unfold borrowBook at h
  dsimp only at h
  split at h
  · simp at h
  · split at h
    · -- existing active borrow: state unchanged
      simp only [Except.ok.injEq, Prod.mk.injEq] at h
      obtain ⟨-, rfl⟩ := h
      exact hs1
    · split at h
      · simp at h
      · split at h
        · simp at h
        · have hs2 : BooksNonneg (condDecrement i (upsertUser s e).2).2 :=
            condDecrement_nonneg i _ hs1
          split at h
          · split at h
            · simp only [Except.ok.injEq, Prod.mk.injEq] at h
              obtain ⟨-, rfl⟩ := h
              exact booksNonneg_of_eq (checkWalletMilestone_frame _).1
                (booksNonneg_of_eq (scheduleRestockIfNeeded_frame _ _ _).1
                  (booksNonneg_of_eq rfl hs2))
            · simp only [Except.ok.injEq, Prod.mk.injEq] at h
              obtain ⟨-, rfl⟩ := h
              exact booksNonneg_of_eq (checkWalletMilestone_frame _).1
                (booksNonneg_of_eq rfl hs2)
          · simp only [Except.ok.injEq, Prod.mk.injEq] at h
            obtain ⟨-, rfl⟩ := h
            exact booksNonneg_of_eq (checkWalletMilestone_frame _).1
              (booksNonneg_of_eq rfl hs2)

/-- A committed return leaves every copy count non-negative (the
unconditional increment adds one). -/
theorem returnBook_nonneg (e i : String) (now : Nat) (s : St) (out : BorrowOut) (s' : St)
    (h : (returnBook e i now s).result = Except.ok (out, s')) (hs : BooksNonneg s) :
    BooksNonneg s' := by
  unfold returnBook at h
  dsimp only at h
  split at h
  · simp at h
  · split at h
    · simp at h
    · split at h
      · split at h
        · simp only [Except.ok.injEq, Prod.mk.injEq] at h
          obtain ⟨-, rfl⟩ := h
          exact hs
        · simp at h
      · simp only [Except.ok.injEq, Prod.mk.injEq] at h
        obtain ⟨-, rfl⟩ := h
        exact booksNonneg_of_eq rfl
          (incrementByIsbn_nonneg i 1 _ (by omega) (booksNonneg_of_eq rfl hs))

/-- A committed buy leaves every copy count non-negative. -/
theorem buyBook_nonneg (e i : String) (now : Nat) (s : St) (out : BuyOut) (s' : St)
    (h : (buyBook e i now s).result = Except.ok (out, s')) (hs : BooksNonneg s) :
    BooksNonneg s' := by
  have hs1 : BooksNonneg (upsertUser s e).2 :=
    booksNonneg_of_eq (upsertUser_frame s e).1 hs
  unfold buyBook at h
  dsimp only at h
  split at h
  · simp at h
  · split at h
    · simp at h
    · split at h
      · simp at h
      · split at h
        · simp at h
        · have hs2 : BooksNonneg (condDecrement i (upsertUser s e).2).2 :=
            condDecrement_nonneg i _ hs1
          split at h
          · split at h
            · simp only [Except.ok.injEq, Prod.mk.injEq] at h
              obtain ⟨-, rfl⟩ := h
              exact booksNonneg_of_eq (checkWalletMilestone_frame _).1
                (booksNonneg_of_eq (scheduleRestockIfNeeded_frame _ _ _).1
                  (booksNonneg_of_eq rfl hs2))
            · simp only [Except.ok.injEq, Prod.mk.injEq] at h
              obtain ⟨-, rfl⟩ := h
              exact booksNonneg_of_eq (checkWalletMilestone_frame _).1
                (booksNonneg_of_eq rfl hs2)
          · simp only [Except.ok.injEq, Prod.mk.injEq] at h
            obtain ⟨-, rfl⟩ := h
            exact booksNonneg_of_eq (checkWalletMilestone_frame _).1
              (booksNonneg_of_eq rfl hs2)

/-- A committed cancel leaves every copy count non-negative. -/
theorem cancelPurchase_nonneg (e : String) (pid now : Nat) (s : St) (out : BuyOut) (s' : St)
    (h : (cancelPurchase e pid now s).result = Except.ok (out, s')) (hs : BooksNonneg s) :
    BooksNonneg s' := by
  unfold cancelPurchase at h
  dsimp only at h
  split at h
  · simp at h
  · split at h
    · simp at h
    · split at h
      · split at h
        · simp only [Except.ok.injEq, Prod.mk.injEq] at h
          obtain ⟨-, rfl⟩ := h
          exact hs
        · simp at h
      · split at h
        · simp at h
        · split at h
          · simp at h
          · simp only [Except.ok.injEq, Prod.mk.injEq] at h
            obtain ⟨-, rfl⟩ := h
            exact booksNonneg_of_eq rfl
              (incrementById_nonneg _ 1 _ (by omega) (booksNonneg_of_eq rfl hs))

/-- A committed restock leaves every copy count non-negative (it adds a
positive number of copies). -/
theorem handleRestockJob_nonneg (job : Job) (s s' : St)
    (h : handleRestockJob job s = Except.ok s') (hs : BooksNonneg s) :
    BooksNonneg s' := by
  unfold handleRestockJob at h
  dsimp only at h
  split at h
  · simp only [Except.ok.injEq] at h
    exact h ▸ hs
  · split at h
    · simp only [Except.ok.injEq] at h
      exact h ▸ hs
    · split at h
      · simp only [Except.ok.injEq] at h
        exact h ▸ hs
      · split at h
        · simp at h
        · rename_i bookId hbook book hneed hbal
          simp only [Except.ok.injEq] at h
          subst h
          refine booksNonneg_of_eq rfl (incrementById_nonneg _ _ _ (by omega) ?_)
          exact booksNonneg_of_eq (addMovementInTransaction_frame _ _).1 hs

/-- The reminder handler never touches the Book table. -/
theorem handleReminderJob_books (job : Job) (s : St) :
    (handleReminderJob job s).books = s.books := by
  unfold handleReminderJob
  split
  · rfl
  · split
    · rfl
    · split
      · rfl
      · split <;> rfl

/-- Every committed transition preserves non-negative inventory. -/
theorem step_nonneg {s s' : St} (hst : Step s s') (hs : BooksNonneg s) : BooksNonneg s' := by
  cases hst with
  | borrow e i now out s s' h => exact borrowBook_nonneg e i now s out s' h hs
  | returnB e i now out s s' h => exact returnBook_nonneg e i now s out s' h hs
  | buy e i now out s s' h => exact buyBook_nonneg e i now s out s' h hs
  | cancel e pid now out s s' h => exact cancelPurchase_nonneg e pid now s out s' h hs
  | restock job s s' h => exact handleRestockJob_nonneg job s s' h hs
  | reminder job s => exact booksNonneg_of_eq (handleReminderJob_books job s) hs
  | jobClaim now jid s => exact booksNonneg_of_eq rfl hs
  | jobComplete now jid s => exact booksNonneg_of_eq rfl hs
  | jobFail now err jid s => exact booksNonneg_of_eq rfl hs
  | jobRetry now err jid s => exact booksNonneg_of_eq rfl hs

/-- Non-negative inventory holds at every reachable state. -/
theorem reach_nonneg {s0 s : St} (hr : Reach s0 s) (h0 : BooksNonneg s0) : BooksNonneg s := by
  induction hr with
  | refl => exact h0
  | tail _ hstep ih => exact step_nonneg hstep ih

-- ## The borrow limit

/-- When the user row already exists the upsert is the identity. -/
theorem upsertUser_found {s : St} {e : String} {u : User} (h : findUser s e = some u) :
    upsertUser s e = (u, s) := by
  unfold upsertUser
  rw [h]

/-- The borrow limit check fails before any write: a user at the limit with
no live borrow of the requested book gets BORROW_LIMIT_EXCEEDED and the
transaction rolls back. -/
theorem borrowBook_limit_error (e i : String) (now : Nat) (s : St) (user : User) (book : Book)
    (hu : findUser s e = some user) (hb : findBook s i = some book)
    (hna : s.borrows.find? (fun b =>
      decide (b.userId = user.id) && decide (b.bookId = book.id) && b.activeKey.isSome) = none)
    (hcount : MAX_ACTIVE_BORROWS ≤ activeBorrowCountU s user.id) :
    (borrowBook e i now s).result = Except.error ErrCode.BORROW_LIMIT_EXCEEDED := by
  unfold activeBorrowCountU at hcount
  unfold borrowBook
  rw [upsertUser_found hu]
  dsimp only
  rw [hb]
  dsimp only
  rw [hna]
  dsimp only
  rw [if_pos hcount]

/-- With no copy of the book available (and the earlier checks passing),
the guarded decrement affects zero rows and the operation fails with
NO_COPIES_AVAILABLE; the transaction rolls back, leaving the book row
unchanged. -/
theorem borrowBook_no_copies_error (e i : String) (now : Nat) (s : St)
    (user : User) (book : Book)
    (hu : findUser s e = some user) (hb : findBook s i = some book)
    (hna : s.borrows.find? (fun b =>
      decide (b.userId = user.id) && decide (b.bookId = book.id) && b.activeKey.isSome) = none)
    (hcount : activeBorrowCountU s user.id < MAX_ACTIVE_BORROWS)
    (hz : ∀ b ∈ s.books, b.isbn = i → b.availableCopies < 1) :
    (borrowBook e i now s).result = Except.error ErrCode.NO_COPIES_AVAILABLE := by
  unfold activeBorrowCountU at hcount
  have haff : (condDecrement i s).1 = 0 := by
    unfold condDecrement
    dsimp only
    rw [List.length_eq_zero]
    rw [List.filter_eq_nil_iff]
    intro b hbmem
    unfold decrementMatches
    simp only [Bool.and_eq_true, decide_eq_true_eq, not_and]
    intro hbi
    have := hz b hbmem hbi
    omega
  unfold borrowBook
  rw [upsertUser_found hu]
  dsimp only
  rw [hb]
  dsimp only
  rw [hna]
  dsimp only
  rw [if_neg (by omega)]
  rw [if_pos haff]

/-- The same zero-affected behaviour for buy. -/
theorem buyBook_no_copies_error (e i : String) (now : Nat) (s : St)
    (user : User) (book : Book)
    (hu : findUser s e = some user) (hb : findBook s i = some book)
    (hbp : (s.purchases.filter (fun p =>
      decide (p.userId = user.id) && decide (p.bookId = book.id) &&
      decide (p.status = PurchaseStatus.ACTIVE))).length < MAX_COPIES_PER_BOOK)
    (htp : (s.purchases.filter (fun p =>
      decide (p.userId = user.id) &&
      decide (p.status = PurchaseStatus.ACTIVE))).length < MAX_TOTAL_COPIES)
    (hz : ∀ b ∈ s.books, b.isbn = i → b.availableCopies < 1) :
    (buyBook e i now s).result = Except.error ErrCode.NO_COPIES_AVAILABLE := by
  have haff : (condDecrement i s).1 = 0 := by
    unfold condDecrement
    dsimp only
    rw [List.length_eq_zero]
    rw [List.filter_eq_nil_iff]
    intro b hbmem
    unfold decrementMatches
    simp only [Bool.and_eq_true, decide_eq_true_eq, not_and]
    intro hbi
    have := hz b hbmem hbi
    omega
  unfold buyBook
  rw [upsertUser_found hu]
  dsimp only
  rw [hb]
  dsimp only
  rw [if_neg (by omega)]
  rw [if_neg (by omega)]
  rw [if_pos haff]

theorem borrowLimitInv_of_eq {s t : St} (h : t.borrows = s.borrows)
    (hs : BorrowLimitInv s) : BorrowLimitInv t := by
  intro uid
  unfold activeBorrowCountU
  rw [h]
  exact hs uid

/-- Mapping a row transformer that can only falsify the filter predicate
never increases the filtered length. -/
theorem length_filter_map_le {α : Type} (l : List α) (f : α → α) (p : α → Bool)
    (hp : ∀ a, p (f a) = true → p a = true) :
    ((l.map f).filter p).length ≤ (l.filter p).length := by
  induction l with
  | nil => simp
  | cons a l ih =>
    simp only [List.map_cons, List.filter_cons]
    by_cases h1 : p (f a) = true
    · rw [if_pos h1, if_pos (hp a h1)]
      simpa using ih
    · rw [if_neg h1]
      split
      · exact Nat.le_trans ih (by simp)
      · exact ih

/-- Appending one borrow row raises a user count by at most one, and only
for that row's user. -/
theorem countU_append_le (l : List Borrow) (nb : Borrow)
    (hlt : (l.filter (fun b => decide (b.userId = nb.userId) && b.activeKey.isSome)).length + 1 ≤
      MAX_ACTIVE_BORROWS)
    (hall : ∀ uid : Nat, (l.filter (fun b =>
      decide (b.userId = uid) && b.activeKey.isSome)).length ≤ MAX_ACTIVE_BORROWS) :
    ∀ uid : Nat, ((l ++ [nb]).filter (fun b =>
      decide (b.userId = uid) && b.activeKey.isSome)).length ≤ MAX_ACTIVE_BORROWS := by
  intro uid
  rw [List.filter_append, List.length_append]
  by_cases huid : uid = nb.userId
  · have h1 : (([nb] : List Borrow).filter (fun b =>
        decide (b.userId = uid) && b.activeKey.isSome)).length ≤ 1 := by
      simpa using List.length_filter_le _ _
    have h2 : (l.filter (fun b =>
        decide (b.userId = uid) && b.activeKey.isSome)).length + 1 ≤ MAX_ACTIVE_BORROWS := by
      rw [huid]
      exact hlt
    omega
  · have h0 : (([nb] : List Borrow).filter (fun b =>
        decide (b.userId = uid) && b.activeKey.isSome)).length = 0 := by
      have hd : (decide (nb.userId = uid)) = false :=
        decide_eq_false (fun hc => huid hc.symm)
      simp [List.filter, hd]
    rw [h0]
    have := hall uid
    omega

/-- A committed borrow keeps every user at or below the 3-borrow limit:
the insert happens only after the count check saw at most 2 live borrows. -/
theorem borrowBook_limit_preserved (e i : String) (now : Nat) (s : St)
    (out : BorrowOut) (s' : St)
    (h : (borrowBook e i now s).result = Except.ok (out, s')) (hs : BorrowLimitInv s) :
    BorrowLimitInv s' := by
  have hfr := (upsertUser_frame s e).2.1
  have hcd : (condDecrement i (upsertUser s e).2).2.borrows = (upsertUser s e).2.borrows := rfl
  unfold borrowBook at h
  dsimp only at h
  split at h
  · simp at h
  · rename_i book hbookeq
    split at h
    · simp only [Except.ok.injEq, Prod.mk.injEq] at h
      obtain ⟨-, rfl⟩ := h
      exact borrowLimitInv_of_eq hfr hs
    · split at h
      · simp at h
      · rename_i hguard
        have hlt : ((condDecrement i (upsertUser s e).2).2.borrows.filter (fun b =>
            decide (b.userId = (upsertUser s e).1.id) && b.activeKey.isSome)).length + 1 ≤
            MAX_ACTIVE_BORROWS := by
          rw [hcd]
          unfold MAX_ACTIVE_BORROWS at hguard ⊢
          omega
        have hall : ∀ uid : Nat,
            ((condDecrement i (upsertUser s e).2).2.borrows.filter (fun b =>
            decide (b.userId = uid) && b.activeKey.isSome)).length ≤ MAX_ACTIVE_BORROWS := by
          intro uid
          rw [hcd, hfr]
          exact hs uid
        have key := countU_append_le (condDecrement i (upsertUser s e).2).2.borrows
          { id := (condDecrement i (upsertUser s e).2).2.nextId,
            userId := (upsertUser s e).1.id, bookId := book.id,
            dueAt := now + BORROW_DURATION_MS, returnedAt := none,
            status := BorrowStatus.ACTIVE,
            activeKey := some ((upsertUser s e).1.id, book.id) } hlt hall
        split at h
        · simp at h
        · split at h
          · split at h
            · simp only [Except.ok.injEq, Prod.mk.injEq] at h
              obtain ⟨-, rfl⟩ := h
              exact borrowLimitInv_of_eq (checkWalletMilestone_frame _).2.1
                (borrowLimitInv_of_eq (scheduleRestockIfNeeded_frame _ _ _).2.1
                  (fun uid => key uid))
            · simp only [Except.ok.injEq, Prod.mk.injEq] at h
              obtain ⟨-, rfl⟩ := h
              exact borrowLimitInv_of_eq (checkWalletMilestone_frame _).2.1
                (fun uid => key uid)
          · simp only [Except.ok.injEq, Prod.mk.injEq] at h
            obtain ⟨-, rfl⟩ := h
            exact borrowLimitInv_of_eq (checkWalletMilestone_frame _).2.1
              (fun uid => key uid)

/-- A committed return never raises a user's live-borrow count: it only
clears activeKeys. -/
theorem returnBook_limit_preserved (e i : String) (now : Nat) (s : St)
    (out : BorrowOut) (s' : St)
    (h : (returnBook e i now s).result = Except.ok (out, s')) (hs : BorrowLimitInv s) :
    BorrowLimitInv s' := by
  unfold returnBook at h
  dsimp only at h
  split at h
  · simp at h
  · split at h
    · simp at h
    · rename_i book hbookeq
      split at h
      · split at h
        · simp only [Except.ok.injEq, Prod.mk.injEq] at h
          obtain ⟨-, rfl⟩ := h
          exact hs
        · simp at h
      · rename_i activeBorrow hactive
        simp only [Except.ok.injEq, Prod.mk.injEq] at h
        obtain ⟨-, rfl⟩ := h
        intro uid
        have hle := length_filter_map_le s.borrows
          (fun b => if decide (b.id = activeBorrow.id) then
            { b with activeKey := (none : Option (Nat × Nat)), returnedAt := some now,
                     status := BorrowStatus.RETURNED }
          else b)
          (fun b => decide (b.userId = uid) && b.activeKey.isSome)
          (by
            intro a hpa
            dsimp only at hpa ⊢
            by_cases hid : decide (a.id = activeBorrow.id) = true
            · rw [if_pos hid] at hpa
              simp at hpa
            · rw [if_neg hid] at hpa
              exact hpa)
        exact Nat.le_trans hle (hs uid)

/-- A committed buy leaves the Borrow table unchanged. -/
theorem buyBook_borrows (e i : String) (now : Nat) (s : St) (out : BuyOut) (s' : St)
    (h : (buyBook e i now s).result = Except.ok (out, s')) : s'.borrows = s.borrows := by
  have hfr := (upsertUser_frame s e).2.1
  unfold buyBook at h
  dsimp only at h
  split at h
  · simp at h
  · split at h
    · simp at h
    · split at h
      · simp at h
      · split at h
        · simp at h
        · split at h
          · split at h
            · simp only [Except.ok.injEq, Prod.mk.injEq] at h
              obtain ⟨-, rfl⟩ := h
              rw [(checkWalletMilestone_frame _).2.1,
                (scheduleRestockIfNeeded_frame _ _ _).2.1]
              exact hfr
            · simp only [Except.ok.injEq, Prod.mk.injEq] at h
              obtain ⟨-, rfl⟩ := h
              rw [(checkWalletMilestone_frame _).2.1]
              exact hfr
          · simp only [Except.ok.injEq, Prod.mk.injEq] at h
            obtain ⟨-, rfl⟩ := h
            rw [(checkWalletMilestone_frame _).2.1]
            exact hfr

/-- A committed cancel leaves the Borrow table unchanged. -/
theorem cancelPurchase_borrows (e : String) (pid now : Nat) (s : St) (out : BuyOut) (s' : St)
    (h : (cancelPurchase e pid now s).result = Except.ok (out, s')) :
    s'.borrows = s.borrows := by
  unfold cancelPurchase at h
  dsimp only at h
  split at h
  · simp at h
  · split at h
    · simp at h
    · split at h
      · split at h
        · simp only [Except.ok.injEq, Prod.mk.injEq] at h
          obtain ⟨-, rfl⟩ := h
          rfl
        · simp at h
      · split at h
        · simp at h
        · split at h
          · simp at h
          · simp only [Except.ok.injEq, Prod.mk.injEq] at h
            obtain ⟨-, rfl⟩ := h
            rfl

/-- A committed restock leaves the Borrow table unchanged. -/
theorem handleRestockJob_borrows (job : Job) (s s' : St)
    (h : handleRestockJob job s = Except.ok s') : s'.borrows = s.borrows := by
  unfold handleRestockJob at h
  dsimp only at h
  split at h
  · simp only [Except.ok.injEq] at h
    rw [← h]
  · split at h
    · simp only [Except.ok.injEq] at h
      rw [← h]
    · split at h
      · simp only [Except.ok.injEq] at h
        rw [← h]
      · split at h
        · simp at h
        · simp only [Except.ok.injEq] at h
          subst h
          exact (addMovementInTransaction_frame _ _).2.1

/-- The reminder handler leaves the Borrow table unchanged. -/
theorem handleReminderJob_borrows (job : Job) (s : St) :
    (handleReminderJob job s).borrows = s.borrows := by
  unfold handleReminderJob
  split
  · rfl
  · split
    · rfl
    · split
      · rfl
      · split <;> rfl

/-- Every committed transition preserves the 3-borrow limit. -/
theorem step_limit {s s' : St} (hst : Step s s') (hs : BorrowLimitInv s) :
    BorrowLimitInv s' := by
  cases hst with
  | borrow e i now out s s' h => exact borrowBook_limit_preserved e i now s out s' h hs
  | returnB e i now out s s' h => exact returnBook_limit_preserved e i now s out s' h hs
  | buy e i now out s s' h => exact borrowLimitInv_of_eq (buyBook_borrows e i now s out s' h) hs
  | cancel e pid now out s s' h =>
      exact borrowLimitInv_of_eq (cancelPurchase_borrows e pid now s out s' h) hs
  | restock job s s' h => exact borrowLimitInv_of_eq (handleRestockJob_borrows job s s' h) hs
  | reminder job s => exact borrowLimitInv_of_eq (handleReminderJob_borrows job s) hs
  | jobClaim now jid s => exact borrowLimitInv_of_eq rfl hs
  | jobComplete now jid s => exact borrowLimitInv_of_eq rfl hs
  | jobFail now err jid s => exact borrowLimitInv_of_eq rfl hs
  | jobRetry now err jid s => exact borrowLimitInv_of_eq rfl hs

/-- The 3-borrow limit holds at every reachable state. -/
theorem reach_limit {s0 s : St} (hr : Reach s0 s) (h0 : BorrowLimitInv s0) :
    BorrowLimitInv s := by
  induction hr with
  | refl => exact h0
  | tail _ hstep ih => exact step_limit hstep ih

-- ## Monotonicity of the milestone flag

theorem milestoneFlag_of_eq {s t : St} (h : t.wallet = s.wallet) :
    milestoneFlag t = milestoneFlag s := by
  unfold milestoneFlag
  rw [h]

/-- A committed borrow never clears the milestone flag. -/
theorem borrowBook_flag_mono (e i : String) (now : Nat) (s : St) (out : BorrowOut) (s' : St)
    (h : (borrowBook e i now s).result = Except.ok (out, s'))
    (hs : milestoneFlag s = true) : milestoneFlag s' = true := by
  have hfr := (upsertUser_frame s e).2.2.2.2.1
  have hup : milestoneFlag (upsertUser s e).2 = true := by
    rw [milestoneFlag_of_eq hfr]
    exact hs
  unfold borrowBook at h
  dsimp only at h
  split at h
  · simp at h
  · split at h
    · simp only [Except.ok.injEq, Prod.mk.injEq] at h
      obtain ⟨-, rfl⟩ := h
      exact hup
    · split at h
      · simp at h
      · split at h
        · simp at h
        · split at h
          · split at h
            · simp only [Except.ok.injEq, Prod.mk.injEq] at h
              obtain ⟨-, rfl⟩ := h
              apply checkWalletMilestone_mono
              rw [milestoneFlag_of_eq (scheduleRestockIfNeeded_frame _ _ _).2.2.2.2]
              exact hup
            · simp only [Except.ok.injEq, Prod.mk.injEq] at h
              obtain ⟨-, rfl⟩ := h
              apply checkWalletMilestone_mono
              exact hup
          · simp only [Except.ok.injEq, Prod.mk.injEq] at h
            obtain ⟨-, rfl⟩ := h
            apply checkWalletMilestone_mono
            exact hup

/-- A committed return never touches the wallet. -/
theorem returnBook_wallet (e i : String) (now : Nat) (s : St) (out : BorrowOut) (s' : St)
    (h : (returnBook e i now s).result = Except.ok (out, s')) : s'.wallet = s.wallet := by
  unfold returnBook at h
  dsimp only at h
  split at h
  · simp at h
  · split at h
    · simp at h
    · split at h
      · split at h
        · simp only [Except.ok.injEq, Prod.mk.injEq] at h
          obtain ⟨-, rfl⟩ := h
          rfl
        · simp at h
      · simp only [Except.ok.injEq, Prod.mk.injEq] at h
        obtain ⟨-, rfl⟩ := h
        rfl

/-- A committed buy never clears the milestone flag. -/
theorem buyBook_flag_mono (e i : String) (now : Nat) (s : St) (out : BuyOut) (s' : St)
    (h : (buyBook e i now s).result = Except.ok (out, s'))
    (hs : milestoneFlag s = true) : milestoneFlag s' = true := by
  have hfr := (upsertUser_frame s e).2.2.2.2.1
  have hup : milestoneFlag (upsertUser s e).2 = true := by
    rw [milestoneFlag_of_eq hfr]
    exact hs
  unfold buyBook at h
  dsimp only at h
  split at h
  · simp at h
  · split at h
    · simp at h
    · split at h
      · simp at h
      · split at h
        · simp at h
        · split at h
          · split at h
            · simp only [Except.ok.injEq, Prod.mk.injEq] at h
              obtain ⟨-, rfl⟩ := h
              apply checkWalletMilestone_mono
              rw [milestoneFlag_of_eq (scheduleRestockIfNeeded_frame _ _ _).2.2.2.2]
              exact hup
            · simp only [Except.ok.injEq, Prod.mk.injEq] at h
              obtain ⟨-, rfl⟩ := h
              apply checkWalletMilestone_mono
              exact hup
          · simp only [Except.ok.injEq, Prod.mk.injEq] at h
            obtain ⟨-, rfl⟩ := h
            apply checkWalletMilestone_mono
            exact hup

/-- A committed cancel never touches the wallet row (the refund movement is
a ledger append, not a wallet-flag update). -/
theorem cancelPurchase_wallet (e : String) (pid now : Nat) (s : St) (out : BuyOut) (s' : St)
    (h : (cancelPurchase e pid now s).result = Except.ok (out, s')) :
    s'.wallet = s.wallet := by
  unfold cancelPurchase at h
  dsimp only at h
  split at h
  · simp at h
  · split at h
    · simp at h
    · split at h
      · split at h
        · simp only [Except.ok.injEq, Prod.mk.injEq] at h
          obtain ⟨-, rfl⟩ := h
          rfl
        · simp at h
      · split at h
        · simp at h
        · split at h
          · simp at h
          · simp only [Except.ok.injEq, Prod.mk.injEq] at h
            obtain ⟨-, rfl⟩ := h
            rfl

/-- A committed restock never touches the wallet row. -/
theorem handleRestockJob_wallet (job : Job) (s s' : St)
    (h : handleRestockJob job s = Except.ok s') : s'.wallet = s.wallet := by
  unfold handleRestockJob at h
  dsimp only at h
  split at h
  · simp only [Except.ok.injEq] at h
    rw [← h]
  · split at h
    · simp only [Except.ok.injEq] at h
      rw [← h]
    · split at h
      · simp only [Except.ok.injEq] at h
        rw [← h]
      · split at h
        · simp at h
        · simp only [Except.ok.injEq] at h
          subst h
          exact (addMovementInTransaction_frame _ _).2.2.2.1

/-- The reminder handler never touches the wallet row. -/
theorem handleReminderJob_wallet (job : Job) (s : St) :
    (handleReminderJob job s).wallet = s.wallet := by
  unfold handleReminderJob
  split
  · rfl
  · split
    · rfl
    · split
      · rfl
      · split <;> rfl

/-- No committed transition ever clears the milestone flag. -/
theorem step_flag_mono {s s' : St} (hst : Step s s') (hs : milestoneFlag s = true) :
    milestoneFlag s' = true := by
  cases hst with
  | borrow e i now out s s' h => exact borrowBook_flag_mono e i now s out s' h hs
  | returnB e i now out s s' h =>
      rw [milestoneFlag_of_eq (returnBook_wallet e i now s out s' h)]
      exact hs
  | buy e i now out s s' h => exact buyBook_flag_mono e i now s out s' h hs
  | cancel e pid now out s s' h =>
      rw [milestoneFlag_of_eq (cancelPurchase_wallet e pid now s out s' h)]
      exact hs
  | restock job s s' h =>
      rw [milestoneFlag_of_eq (handleRestockJob_wallet job s s' h)]
      exact hs
  | reminder job s =>
      rw [milestoneFlag_of_eq (handleReminderJob_wallet job s)]
      exact hs
  | jobClaim now jid s => exact hs
  | jobComplete now jid s => exact hs
  | jobFail now err jid s => exact hs
  | jobRetry now err jid s => exact hs

/-- Once the milestone flag is set it stays set at every reachable state. -/
theorem reach_flag_mono {s0 s : St} (hr : Reach s0 s) (h0 : milestoneFlag s0 = true) :
    milestoneFlag s = true := by
  induction hr with
  | refl => exact h0
  | tail _ hstep ih => exact step_flag_mono hstep ih

/-- When the flag is unset and the balance does not exceed the threshold,
the watcher changes nothing. -/
theorem checkWalletMilestone_below (s : St) (w : LibraryWallet)
    (hw : s.wallet = some w) (hflag : w.milestoneReached = false)
    (hbal : balanceCents s ≤ WALLET_MILESTONE_CENTS) :
    (checkWalletMilestone s).2 = s := by
  unfold checkWalletMilestone
  rw [hw]
  dsimp only
  rw [if_neg (by rw [hflag]; simp)]
  rw [if_neg (by omega)]

/-- When the flag is unset and the balance exceeds the threshold, the
watcher sets the flag and appends exactly the milestone email (dedupe key
MILESTONE:2000) and the milestone event. -/
theorem checkWalletMilestone_fires (s : St) (w : LibraryWallet)
    (hw : s.wallet = some w) (hflag : w.milestoneReached = false)
    (hbal : WALLET_MILESTONE_CENTS < balanceCents s) :
    (checkWalletMilestone s).2 =
      { s with
        wallet := some { milestoneReached := true },
        emails := s.emails ++ [{ recipient := "management@dummy-library.com",
                                 subject := "Wallet Milestone Reached",
                                 type := EmailType.MILESTONE,
                                 dedupeKey := DKey.milestoneK }],
        events := s.events ++ [{ type := "MILESTONE_EMAIL",
                                 userId := none, bookId := none, borrowId := none,
                                 purchaseId := none, jobId := none,
                                 dedupeKey := some DKey.milestoneEmailK }] } := by
  unfold checkWalletMilestone
  rw [hw]
  dsimp only
  rw [if_neg (by rw [hflag]; simp)]
  rw [if_pos hbal]

-- ## Idempotent borrow

/-- When an active borrow of (user, book) exists, borrow returns it with
isExisting = true and commits the state unchanged: no insert, no ledger
append, no decrement, and in particular no limit check is reached. -/
theorem borrowBook_idempotent (e i : String) (now : Nat) (s : St)
    (user : User) (book : Book) (ex : Borrow)
    (hu : findUser s e = some user) (hb : findBook s i = some book)
    (hex : s.borrows.find? (fun b =>
      decide (b.userId = user.id) && decide (b.bookId = book.id) && b.activeKey.isSome) =
      some ex) :
    (borrowBook e i now s).result =
      Except.ok ({ borrow := ex, isExisting := true }, s) := by
  unfold borrowBook
  rw [upsertUser_found hu]
  dsimp only
  rw [hb]
  dsimp only
  rw [hex]

/-- The borrow returned by the idempotent path really is a live borrow of
that user and book. -/
theorem find?_active_props (s : St) (user : User) (book : Book) (ex : Borrow)
    (hex : s.borrows.find? (fun b =>
      decide (b.userId = user.id) && decide (b.bookId = book.id) && b.activeKey.isSome) =
      some ex) :
    ex.userId = user.id ∧ ex.bookId = book.id ∧ ex.activeKey.isSome = true := by
  have := List.find?_some hex
  simp only [Bool.and_eq_true, decide_eq_true_eq] at this
  exact ⟨this.1.1, this.1.2, this.2⟩

-- ## Cancel behaviours

/-- Cancelling an ACTIVE purchase older than 5 minutes fails with
CANCELLATION_WINDOW_EXPIRED; the transaction rolls back, so purchase,
inventory and ledger are untouched. -/
theorem cancelPurchase_window_expired (e : String) (pid now : Nat) (s : St)
    (user : User) (p : Purchase)
    (hu : findUser s e = some user)
    (hp : s.purchases.find? (fun q =>
      decide (q.id = pid) && decide (q.userId = user.id)) = some p)
    (hact : p.status = PurchaseStatus.ACTIVE)
    (hwin : CANCEL_WINDOW_MS < (now : Int) - (p.purchasedAt : Int)) :
    (cancelPurchase e pid now s).result =
      Except.error ErrCode.CANCELLATION_WINDOW_EXPIRED := by
  unfold cancelPurchase
  rw [hu]
  dsimp only
  rw [hp]
  dsimp only
  rw [if_neg (by rw [hact]; simp)]
  rw [if_pos hwin]

/-- Cancelling an already-CANCELED purchase is an idempotent no-op: it
returns the stored row with isExisting = true and commits the state
unchanged, so no second CANCEL_REFUND movement is appended. -/
theorem cancelPurchase_idempotent (e : String) (pid now : Nat) (s : St)
    (user : User) (p : Purchase)
    (hu : findUser s e = some user)
    (hp : s.purchases.find? (fun q =>
      decide (q.id = pid) && decide (q.userId = user.id)) = some p)
    (hc : p.status = PurchaseStatus.CANCELED)
    (hp2 : s.purchases.find? (fun q => decide (q.id = pid)) = some p) :
    (cancelPurchase e pid now s).result =
      Except.ok ({ purchase := p, isExisting := true }, s) := by
  unfold cancelPurchase
  rw [hu]
  dsimp only
  rw [hp]
  dsimp only
  rw [if_pos hc]
  rw [hp2]

-- ## Restock handler behaviour

/-- With a fresh dedupe key the ledger append inserts exactly one row. -/
theorem addMovementInTransaction_insert (s : St) (d : MovementData) (k : DKey)
    (hk : d.dedupeKey = some k)
    (hnone : s.movements.find? (fun m => decide (m.dedupeKey = some k)) = none) :
    (addMovementInTransaction s d).2 = { s with movements := s.movements ++ [d.toRow] } := by
  unfold addMovementInTransaction
  rw [hk]
  dsimp only
  rw [hnone]

/-- find? commutes with mapping a row transformer that preserves the
searched predicate. -/
theorem find?_map_of_pres {α : Type} (l : List α) (p : α → Bool) (f : α → α) (x : α)
    (hfind : l.find? p = some x) (hf : ∀ a, p (f a) = p a) :
    (l.map f).find? p = some (f x) := by
  induction l with
  | nil => simp at hfind
  | cons a l ih =>
    by_cases hpa : p a = true
    · rw [List.find?_cons_of_pos _ hpa] at hfind
      rw [List.map_cons, List.find?_cons_of_pos _ (by rw [hf]; exact hpa)]
      simp only [Option.some.injEq] at hfind ⊢
      rw [hfind]
    · rw [List.find?_cons_of_neg _ hpa] at hfind
      rw [List.map_cons, List.find?_cons_of_neg _ (by rw [hf]; exact hpa)]
      exact ih hfind

/-- Restock success: needed copies are bought at stock price, exactly one
RESTOCK_EXPENSE movement of -needed*stockPriceCents is appended, and the
book is topped up to its seeded level. -/
theorem handleRestockJob_success (job : Job) (s : St) (bid : Nat) (book : Book)
    (hpay : job.payloadBookId = some bid)
    (hbook : s.books.find? (fun b => decide (b.id = bid)) = some book)
    (hneed : 0 < book.seededCopies - book.availableCopies)
    (hbal : (book.seededCopies - book.availableCopies) * book.stockPriceCents ≤
      balanceCents s)
    (hfresh : s.movements.find? (fun m =>
      decide (m.dedupeKey = some (DKey.restockK job.id))) = none) :
    ∃ s', handleRestockJob job s = Except.ok s' ∧
      s'.movements = s.movements ++
        [{ amountCents := -((book.seededCopies - book.availableCopies) *
             book.stockPriceCents),
           type := MovementType.RESTOCK_EXPENSE, reason := "Restock",
           relatedEntity := some "job",
           dedupeKey := some (DKey.restockK job.id) }] ∧
      s'.books.find? (fun b => decide (b.id = bid)) =
        some { book with availableCopies := book.seededCopies } := by
  have hins := addMovementInTransaction_insert s
    { amountCents := -((book.seededCopies - book.availableCopies) * book.stockPriceCents),
      type := MovementType.RESTOCK_EXPENSE, reason := "Restock",
      relatedEntity := some "job", dedupeKey := some (DKey.restockK job.id) }
    (DKey.restockK job.id) rfl hfresh
  refine ⟨{ incrementById bid (book.seededCopies - book.availableCopies)
      (addMovementInTransaction s
        { amountCents := -((book.seededCopies - book.availableCopies) *
            book.stockPriceCents),
          type := MovementType.RESTOCK_EXPENSE, reason := "Restock",
          relatedEntity := some "job",
          dedupeKey := some (DKey.restockK job.id) }).2 with
      events := (incrementById bid (book.seededCopies - book.availableCopies)
        (addMovementInTransaction s
          { amountCents := -((book.seededCopies - book.availableCopies) *
              book.stockPriceCents),
            type := MovementType.RESTOCK_EXPENSE, reason := "Restock",
            relatedEntity := some "job",
            dedupeKey := some (DKey.restockK job.id) }).2).events ++
        [{ type := "RESTOCK_DELIVERED", userId := none, bookId := some book.id,
           borrowId := none, purchaseId := none, jobId := some job.id,
           dedupeKey := some (DKey.restockDeliveredK job.id) }] }, ?_, ?_, ?_⟩
  · unfold handleRestockJob
    rw [hpay]
    dsimp only
    rw [hbook]
    dsimp only
    rw [if_neg (by omega)]
    rw [if_neg (by omega)]
  · show (incrementById bid (book.seededCopies - book.availableCopies)
      (addMovementInTransaction s _).2).movements = _
    rw [(incrementById_frame _ _ _).2.2.1]
    rw [hins]
    dsimp only [MovementData.toRow]
  · show (incrementById bid (book.seededCopies - book.availableCopies)
      (addMovementInTransaction s _).2).books.find? _ = _
    have hbooks1 : (addMovementInTransaction s
        { amountCents := -((book.seededCopies - book.availableCopies) *
            book.stockPriceCents),
          type := MovementType.RESTOCK_EXPENSE, reason := "Restock",
          relatedEntity := some "job",
          dedupeKey := some (DKey.restockK job.id) }).2.books = s.books :=
      (addMovementInTransaction_frame _ _).1
    unfold incrementById
    dsimp only
    rw [hbooks1]
    have hcomm := find?_map_of_pres s.books (fun b => decide (b.id = bid))
      (fun b => if decide (b.id = bid) then
        { b with availableCopies := b.availableCopies +
            (book.seededCopies - book.availableCopies) }
        else b) book hbook
      (by
        intro a
        dsimp only
        by_cases hid : decide (a.id = bid) = true
        · rw [if_pos hid]
        · rw [if_neg hid])
    rw [hcomm]
    have hbid : decide (book.id = bid) = true := by
      have := List.find?_some hbook
      simpa using this
    dsimp only
    rw [if_pos hbid]
    have hsum : book.availableCopies + (book.seededCopies - book.availableCopies) =
        book.seededCopies := by ring
    simp [hsum]

/-- Restock with insufficient funds raises InsufficientFundsError (the
transaction rolls back; the runner will retry with backoff). -/
theorem handleRestockJob_insufficient (job : Job) (s : St) (bid : Nat) (book : Book)
    (hpay : job.payloadBookId = some bid)
    (hbook : s.books.find? (fun b => decide (b.id = bid)) = some book)
    (hneed : 0 < book.seededCopies - book.availableCopies)
    (hbal : balanceCents s <
      (book.seededCopies - book.availableCopies) * book.stockPriceCents) :
    handleRestockJob job s = Except.error
      { requiredCents := (book.seededCopies - book.availableCopies) * book.stockPriceCents,
        availableCents := balanceCents s } := by
  unfold handleRestockJob
  rw [hpay]
  dsimp only
  rw [hbook]
  dsimp only
  rw [if_neg (by omega)]
  rw [if_pos hbal]

/-- Restock is a no-op success when the book is missing. -/
theorem handleRestockJob_no_book (job : Job) (s : St) (bid : Nat)
    (hpay : job.payloadBookId = some bid)
    (hbook : s.books.find? (fun b => decide (b.id = bid)) = none) :
    handleRestockJob job s = Except.ok s := by
  unfold handleRestockJob
  rw [hpay]
  dsimp only
  rw [hbook]

/-- Restock is a no-op success when no copies are needed. -/
theorem handleRestockJob_no_need (job : Job) (s : St) (bid : Nat) (book : Book)
    (hpay : job.payloadBookId = some bid)
    (hbook : s.books.find? (fun b => decide (b.id = bid)) = some book)
    (hneed : book.seededCopies - book.availableCopies ≤ 0) :
    handleRestockJob job s = Except.ok s := by
  unfold handleRestockJob
  rw [hpay]
  dsimp only
  rw [hbook]
  dsimp only
  rw [if_pos hneed]

-- ## Job-runner transitions

/-- A successful claim yields a PROCESSING job with its activeKey intact,
its lease taken and its attempt counter bumped. -/
theorem claimJob_some (now : Nat) (j j' : Job) (h : claimJob now j = some j') :
    j'.status = JobStatus.PROCESSING ∧ j'.activeKey = j.activeKey ∧
    j'.activeKey.isSome = true ∧ j'.lockedAt = some now ∧
    j'.attempts = j.attempts + 1 ∧ j'.maxAttempts = j.maxAttempts := by
  unfold claimJob at h
  split at h
  · rename_i hcond
    unfold claimCondition at hcond
    simp only [Bool.and_eq_true] at hcond
    simp only [Option.some.injEq] at h
    subst h
    exact ⟨rfl, rfl, hcond.1, rfl, rfl, rfl⟩
  · simp at h

/-- The complete update produces the exact terminal row shape. -/
theorem completeJobUpdate_spec (now : Nat) (j : Job) :
    (completeJobUpdate now j).status = JobStatus.COMPLETED ∧
    (completeJobUpdate now j).activeKey = none ∧
    (completeJobUpdate now j).completedAt = some now ∧
    (completeJobUpdate now j).lastError = none ∧
    JobInv (completeJobUpdate now j) := by
  refine ⟨rfl, rfl, rfl, rfl, ?_⟩
  unfold JobInv completeJobUpdate
  simp

/-- The failure branch: attempts exhausted goes terminal FAILED with the
activeKey cleared; otherwise the job goes back to PENDING with its
activeKey preserved, the lease released and runAt pushed by the backoff. -/
theorem handleFailureUpdate_spec (now : Nat) (err : String) (j : Job) :
    (j.maxAttempts ≤ j.attempts →
      (handleFailureUpdate now err j).status = JobStatus.FAILED ∧
      (handleFailureUpdate now err j).activeKey = none ∧
      (handleFailureUpdate now err j).completedAt = some now ∧
      (handleFailureUpdate now err j).lastError = some err) ∧
    (j.attempts < j.maxAttempts →
      (handleFailureUpdate now err j).status = JobStatus.PENDING ∧
      (handleFailureUpdate now err j).activeKey = j.activeKey ∧
      (handleFailureUpdate now err j).lockedAt = none ∧
      (handleFailureUpdate now err j).runAt = calculateBackoff j.attempts now ∧
      (handleFailureUpdate now err j).lastError = some err) := by
  constructor
  · intro hmax
    unfold handleFailureUpdate
    rw [if_pos hmax]
    exact ⟨rfl, rfl, rfl, rfl⟩
  · intro hlt
    unfold handleFailureUpdate
    rw [if_neg (by omega)]
    exact ⟨rfl, rfl, rfl, rfl, rfl⟩

/-- Both failure outcomes preserve the activeKey invariant on a claimed
job, as does the success update. -/
theorem jobInv_preserved (now : Nat) (err : String) (j j' : Job)
    (h : claimJob now j = some j') :
    JobInv j' ∧ JobInv (completeJobUpdate now j') ∧
    JobInv (handleFailureUpdate now err j') := by
  obtain ⟨hst, hak, hsome, -, -, -⟩ := claimJob_some now j j' h
  refine ⟨?_, (completeJobUpdate_spec now j').2.2.2.2, ?_⟩
  · unfold JobInv
    rw [hst, hsome]
    simp
  · unfold JobInv handleFailureUpdate
    split
    · unfold failJobUpdate
      simp
    · unfold retryJobUpdate
      dsimp only
      rw [hsome]
      simp

-- ## Backoff law

/-- The backoff in milliseconds is exactly 1000 times the spec's seconds
formula min(60*2^(attempts-1), 3600) for attempts >= 1. -/
theorem calculateBackoff_law (attempts now : Nat) (h : 1 ≤ attempts) :
    calculateBackoff attempts now =
      now + 1000 * min (60 * 2 ^ (attempts - 1)) 3600 := by
  unfold calculateBackoff BASE_BACKOFF_MS MAX_BACKOFF_MS
  have hx : 60000 * 2 ^ (attempts - 1) = 1000 * (60 * 2 ^ (attempts - 1)) := by ring
  rw [hx]
  congr 1
  generalize 60 * 2 ^ (attempts - 1) = x
  omega

/-- A retryable failure sets runAt to exactly the backoff value. -/
theorem retryJobUpdate_runAt (now : Nat) (err : String) (j : Job) :
    (retryJobUpdate now err j).runAt = calculateBackoff j.attempts now := rfl

-- ## Ledger dedupe

/-- When the requested dedupe key already exists, both ledger appends
return the stored row and leave the state untouched, whatever amount,
type or reason the request carried. -/
theorem addMovement_dedupe (s : St) (d : MovementData) (k : DKey) (m : WalletMovement)
    (hk : d.dedupeKey = some k)
    (hm : s.movements.find? (fun x => decide (x.dedupeKey = some k)) = some m) :
    addMovement s d = (m, s) ∧ addMovementInTransaction s d = (m, s) := by
  constructor
  · unfold addMovement
    rw [hk]
    dsimp only
    rw [hm]
  · unfold addMovementInTransaction
    rw [hk]
    dsimp only
    rw [hm]

-- ## Advisory-lock traces

/-- Every borrow execution acquires the advisory lock on the hashed email
as its very first database action. -/
theorem borrowBook_trace_head (e i : String) (now : Nat) (s : St) :
    ∃ rest, (borrowBook e i now s).trace =
      Action.advisoryLock (hashTextToInt e) :: rest := by
  unfold borrowBook
  dsimp only
  split
  · exact ⟨_, rfl⟩
  · split
    · exact ⟨_, rfl⟩
    · split
      · exact ⟨_, rfl⟩
      · split
        · exact ⟨_, rfl⟩
        · split
          · split
            · exact ⟨_, rfl⟩
            · exact ⟨_, rfl⟩
          · exact ⟨_, rfl⟩

/-- Every return execution acquires the advisory lock first. -/
theorem returnBook_trace_head (e i : String) (now : Nat) (s : St) :
    ∃ rest, (returnBook e i now s).trace =
      Action.advisoryLock (hashTextToInt e) :: rest := by
  unfold returnBook
  dsimp only
  split
  · exact ⟨_, rfl⟩
  · split
    · exact ⟨_, rfl⟩
    · split
      · split
        · exact ⟨_, rfl⟩
        · exact ⟨_, rfl⟩
      · exact ⟨_, rfl⟩

/-- Every buy execution acquires the advisory lock first. -/
theorem buyBook_trace_head (e i : String) (now : Nat) (s : St) :
    ∃ rest, (buyBook e i now s).trace =
      Action.advisoryLock (hashTextToInt e) :: rest := by
  unfold buyBook
  dsimp only
  split
  · exact ⟨_, rfl⟩
  · split
    · exact ⟨_, rfl⟩
    · split
      · exact ⟨_, rfl⟩
      · split
        · exact ⟨_, rfl⟩
        · split
          · split
            · exact ⟨_, rfl⟩
            · exact ⟨_, rfl⟩
          · exact ⟨_, rfl⟩

/-- No cancel execution ever acquires an advisory lock: its trace contains
reads, the row-level SELECT FOR UPDATE and writes only. -/
theorem cancelPurchase_no_advisory (e : String) (pid now : Nat) (s : St) (k : Nat) :
    Action.advisoryLock k ∉ (cancelPurchase e pid now s).trace := by
  unfold cancelPurchase
  dsimp only
  split
  · simp
  · split
    · simp
    · split
      · split
        · simp
        · simp
      · split
        · simp
        · split
          · simp
          · simp

/-- The cancel path that mutates state does perform the row-level
SELECT ... FOR UPDATE. -/
theorem cancelPurchase_select_for_update (e : String) (pid now : Nat) (s : St)
    (user : User)
    (hu : findUser s e = some user) :
    Action.selectForUpdate ∈ (cancelPurchase e pid now s).trace := by
  unfold cancelPurchase
  rw [hu]
  dsimp only
  split
  · simp
  · split
    · split
      · simp
      · simp
    · split
      · simp
      · split
        · simp
        · simp

-- ## Claim theorems

/-- C1: At every state reachable from a state with non-negative inventory,
every book keeps availableCopies >= 0; both borrow and buy decrement only
through the conditional update guarded by availableCopies >= 1, and when
that update affects zero rows the operation fails with NO_COPIES_AVAILABLE
and the transaction rolls back, leaving the book row unchanged. -/
theorem claim_C1 (s0 s : St) (h0 : BooksNonneg s0) (hr : Reach s0 s) :
    BooksNonneg s ∧
    (∀ (e i : String) (now : Nat) (user : User) (book : Book),
      findUser s e = some user → findBook s i = some book →
      s.borrows.find? (fun b => decide (b.userId = user.id) &&
        decide (b.bookId = book.id) && b.activeKey.isSome) = none →
      activeBorrowCountU s user.id < MAX_ACTIVE_BORROWS →
      (∀ b ∈ s.books, b.isbn = i → b.availableCopies < 1) →
      (borrowBook e i now s).result = Except.error ErrCode.NO_COPIES_AVAILABLE) ∧
    (∀ (e i : String) (now : Nat) (user : User) (book : Book),
      findUser s e = some user → findBook s i = some book →
      (s.purchases.filter (fun p => decide (p.userId = user.id) &&
        decide (p.bookId = book.id) &&
        decide (p.status = PurchaseStatus.ACTIVE))).length < MAX_COPIES_PER_BOOK →
      (s.purchases.filter (fun p => decide (p.userId = user.id) &&
        decide (p.status = PurchaseStatus.ACTIVE))).length < MAX_TOTAL_COPIES →
      (∀ b ∈ s.books, b.isbn = i → b.availableCopies < 1) →
      (buyBook e i now s).result = Except.error ErrCode.NO_COPIES_AVAILABLE) :=
  ⟨reach_nonneg hr h0,
   fun e i now user book hu hb hna hc hz =>
     borrowBook_no_copies_error e i now s user book hu hb hna hc hz,
   fun e i now user book hu hb hbp htp hz =>
     buyBook_no_copies_error e i now s user book hu hb hbp htp hz⟩

theorem claim_C1_witness :
    BooksNonneg stNoCopies ∧
    (borrowBook "alice@example.com" "isbn-1" 0 stNoCopies).result =
      Except.error ErrCode.NO_COPIES_AVAILABLE ∧
    (buyBook "alice@example.com" "isbn-1" 0 stNoCopies).result =
      Except.error ErrCode.NO_COPIES_AVAILABLE := by
  have h := claim_C1 stNoCopies stNoCopies (by unfold BooksNonneg; decide) Reach.refl
  exact ⟨h.1,
    h.2.1 "alice@example.com" "isbn-1" 0 aliceUser bookEmpty (by decide) (by decide)
      (by decide) (by decide) (by decide),
    h.2.2 "alice@example.com" "isbn-1" 0 aliceUser bookEmpty (by decide) (by decide)
      (by decide) (by decide) (by decide)⟩

/-- C2: A user holding at least 3 live borrows and no live borrow of the
requested book gets BORROW_LIMIT_EXCEEDED with the transaction rolled back
(no decrement, ledger append or borrow insert), and every committed
transition keeps every user at or below 3 live borrows. -/
theorem claim_C2 :
    (∀ (e i : String) (now : Nat) (s : St) (user : User) (book : Book),
      findUser s e = some user → findBook s i = some book →
      s.borrows.find? (fun b => decide (b.userId = user.id) &&
        decide (b.bookId = book.id) && b.activeKey.isSome) = none →
      MAX_ACTIVE_BORROWS ≤ activeBorrowCountU s user.id →
      (borrowBook e i now s).result = Except.error ErrCode.BORROW_LIMIT_EXCEEDED) ∧
    (∀ s0 s : St, BorrowLimitInv s0 → Reach s0 s → BorrowLimitInv s) :=
  ⟨fun e i now s user book hu hb hna hc =>
     borrowBook_limit_error e i now s user book hu hb hna hc,
   fun s0 s h0 hr => reach_limit hr h0⟩

theorem claim_C2_witness :
    (borrowBook "alice@example.com" "isbn-1" 0 stAtLimit).result =
      Except.error ErrCode.BORROW_LIMIT_EXCEEDED ∧ BorrowLimitInv stAtLimit :=
  ⟨claim_C2.1 "alice@example.com" "isbn-1" 0 stAtLimit aliceUser
     { bookEmpty with availableCopies := 4 } (by decide) (by decide) (by decide)
     (by decide),
   claim_C2.2 stAtLimit stAtLimit
     (fun uid => Nat.le_trans (List.length_filter_le _ _) (by decide)) Reach.refl⟩

/-- C3: When a live borrow of (user, book) exists, a second borrow returns
exactly that borrow with isExisting = true and commits the state unchanged
(no new borrow row, no wallet movement, no inventory change), and the
limit check is bypassed. -/
theorem claim_C3 (e i : String) (now : Nat) (s : St) (user : User) (book : Book)
    (ex : Borrow)
    (hu : findUser s e = some user) (hb : findBook s i = some book)
    (hex : s.borrows.find? (fun b => decide (b.userId = user.id) &&
      decide (b.bookId = book.id) && b.activeKey.isSome) = some ex) :
    (borrowBook e i now s).result =
      Except.ok ({ borrow := ex, isExisting := true }, s) ∧
    ex.userId = user.id ∧ ex.bookId = book.id ∧ ex.activeKey.isSome = true :=
  ⟨borrowBook_idempotent e i now s user book ex hu hb hex,
   find?_active_props s user book ex hex⟩

theorem claim_C3_witness :
    (borrowBook "alice@example.com" "isbn-1" 0 stHasActive).result =
      Except.ok ({ borrow := mkActiveBorrow 24 1, isExisting := true }, stHasActive) ∧
    (mkActiveBorrow 24 1).userId = aliceUser.id ∧ (mkActiveBorrow 24 1).bookId = 1 ∧
    (mkActiveBorrow 24 1).activeKey.isSome = true := by
  have h := claim_C3 "alice@example.com" "isbn-1" 0 stHasActive aliceUser
    { bookEmpty with availableCopies := 4 } (mkActiveBorrow 24 1)
    (by decide) (by decide) (by decide)
  exact ⟨h.1, h.2.1, h.2.2.1, h.2.2.2⟩

/-- C4 (counterexample to the claim as stated): a complete, state-changing
cancel execution performs reads, the row-level SELECT FOR UPDATE and
writes, but never acquires any advisory lock. -/
theorem claim_C4_counterexample :
    hasAdvisoryLock (cancelPurchase "alice@example.com" 3 0 stWithPurchase).trace =
      false ∧
    (cancelPurchase "alice@example.com" 3 0 stWithPurchase).trace =
      [Action.dbRead, Action.selectForUpdate, Action.dbRead, Action.dbWrite,
       Action.dbWrite, Action.dbWrite, Action.dbWrite] := by decide

/-- C4 (amended): borrow, return and buy acquire the per-user advisory
lock pg_advisory_xact_lock(hash(userEmail)) as their first database action
inside the transaction; cancel never acquires an advisory lock and
serializes on the purchase row via SELECT ... FOR UPDATE instead. -/
theorem claim_C4_amended (e i : String) (pid now : Nat) (s : St) :
    (∃ rest, (borrowBook e i now s).trace =
      Action.advisoryLock (hashTextToInt e) :: rest) ∧
    (∃ rest, (returnBook e i now s).trace =
      Action.advisoryLock (hashTextToInt e) :: rest) ∧
    (∃ rest, (buyBook e i now s).trace =
      Action.advisoryLock (hashTextToInt e) :: rest) ∧
    (∀ k, Action.advisoryLock k ∉ (cancelPurchase e pid now s).trace) ∧
    (∀ user : User, findUser s e = some user →
      Action.selectForUpdate ∈ (cancelPurchase e pid now s).trace) :=
  ⟨borrowBook_trace_head e i now s, returnBook_trace_head e i now s,
   buyBook_trace_head e i now s, fun k => cancelPurchase_no_advisory e pid now s k,
   fun user hu => cancelPurchase_select_for_update e pid now s user hu⟩

theorem claim_C4_witness :
    (∃ rest, (borrowBook "alice@example.com" "isbn-1" 0 stWithPurchase).trace =
      Action.advisoryLock (hashTextToInt "alice@example.com") :: rest) ∧
    (∀ k, Action.advisoryLock k ∉
      (cancelPurchase "alice@example.com" 3 0 stWithPurchase).trace) ∧
    Action.selectForUpdate ∈
      (cancelPurchase "alice@example.com" 3 0 stWithPurchase).trace := by
  have h := claim_C4_amended "alice@example.com" "isbn-1" 3 0 stWithPurchase
  exact ⟨h.1, h.2.2.2.1, h.2.2.2.2 aliceUser (by decide)⟩

/-- C5: Cancelling an ACTIVE purchase older than 5 minutes fails with
CANCELLATION_WINDOW_EXPIRED and rolls back (purchase, inventory and ledger
unchanged); cancelling an already-CANCELED purchase returns it with
isExisting = true and commits the state unchanged, so no second
CANCEL_REFUND movement is ever appended for it. -/
theorem claim_C5 (e : String) (pid now : Nat) (s : St) (user : User) (p : Purchase)
    (hu : findUser s e = some user)
    (hp : s.purchases.find? (fun q =>
      decide (q.id = pid) && decide (q.userId = user.id)) = some p) :
    (p.status = PurchaseStatus.ACTIVE →
      CANCEL_WINDOW_MS < (now : Int) - (p.purchasedAt : Int) →
      (cancelPurchase e pid now s).result =
        Except.error ErrCode.CANCELLATION_WINDOW_EXPIRED) ∧
    (p.status = PurchaseStatus.CANCELED →
      s.purchases.find? (fun q => decide (q.id = pid)) = some p →
      (cancelPurchase e pid now s).result =
        Except.ok ({ purchase := p, isExisting := true }, s)) :=
  ⟨fun ha hw => cancelPurchase_window_expired e pid now s user p hu hp ha hw,
   fun hc hp2 => cancelPurchase_idempotent e pid now s user p hu hp hc hp2⟩

theorem claim_C5_witness :
    (cancelPurchase "alice@example.com" 3 400000 stWithPurchase).result =
      Except.error ErrCode.CANCELLATION_WINDOW_EXPIRED ∧
    (cancelPurchase "alice@example.com" 3 0 stCanceled).result =
      Except.ok ({ purchase := canceledPurchase, isExisting := true }, stCanceled) := by
  have h1 := claim_C5 "alice@example.com" 3 400000 stWithPurchase aliceUser
    freshPurchase (by decide) (by decide)
  have h2 := claim_C5 "alice@example.com" 3 0 stCanceled aliceUser
    canceledPurchase (by decide) (by decide)
  exact ⟨h1.1 (by decide) (by decide), h2.2 (by decide) (by decide)⟩

/-- C6: a restock job whose book exists and needs copies either appends one
RESTOCK_EXPENSE movement of -needed*stockPriceCents and tops the book up to
its seeded level (when the balance covers the cost), or raises
insufficient-funds with book and ledger untouched; a missing book or
needed <= 0 is a no-op success. -/
theorem claim_C6 :
    (∀ (job : Job) (s : St) (bid : Nat) (book : Book),
      job.payloadBookId = some bid →
      s.books.find? (fun b => decide (b.id = bid)) = some book →
      0 < book.seededCopies - book.availableCopies →
      (book.seededCopies - book.availableCopies) * book.stockPriceCents ≤
        balanceCents s →
      s.movements.find? (fun m =>
        decide (m.dedupeKey = some (DKey.restockK job.id))) = none →
      ∃ s', handleRestockJob job s = Except.ok s' ∧
        s'.movements = s.movements ++
          [{ amountCents := -((book.seededCopies - book.availableCopies) *
               book.stockPriceCents),
             type := MovementType.RESTOCK_EXPENSE, reason := "Restock",
             relatedEntity := some "job",
             dedupeKey := some (DKey.restockK job.id) }] ∧
        s'.books.find? (fun b => decide (b.id = bid)) =
          some { book with availableCopies := book.seededCopies }) ∧
    (∀ (job : Job) (s : St) (bid : Nat) (book : Book),
      job.payloadBookId = some bid →
      s.books.find? (fun b => decide (b.id = bid)) = some book →
      0 < book.seededCopies - book.availableCopies →
      balanceCents s <
        (book.seededCopies - book.availableCopies) * book.stockPriceCents →
      handleRestockJob job s = Except.error
        { requiredCents :=
            (book.seededCopies - book.availableCopies) * book.stockPriceCents,
          availableCents := balanceCents s }) ∧
    (∀ (job : Job) (s : St) (bid : Nat) (book : Book),
      job.payloadBookId = some bid →
      s.books.find? (fun b => decide (b.id = bid)) = some book →
      book.seededCopies - book.availableCopies ≤ 0 →
      handleRestockJob job s = Except.ok s) ∧
    (∀ (job : Job) (s : St) (bid : Nat),
      job.payloadBookId = some bid →
      s.books.find? (fun b => decide (b.id = bid)) = none →
      handleRestockJob job s = Except.ok s) :=
  ⟨fun job s bid book hpay hbook hneed hbal hfresh =>
     handleRestockJob_success job s bid book hpay hbook hneed hbal hfresh,
   fun job s bid book hpay hbook hneed hbal =>
     handleRestockJob_insufficient job s bid book hpay hbook hneed hbal,
   fun job s bid book hpay hbook hneed =>
     handleRestockJob_no_need job s bid book hpay hbook hneed,
   fun job s bid hpay hbook => handleRestockJob_no_book job s bid hpay hbook⟩

theorem claim_C6_witness :
    (∃ s', handleRestockJob restockJobRow stRestock = Except.ok s' ∧
      s'.movements = stRestock.movements ++
        [{ amountCents := -((bookLow.seededCopies - bookLow.availableCopies) *
             bookLow.stockPriceCents),
           type := MovementType.RESTOCK_EXPENSE, reason := "Restock",
           relatedEntity := some "job",
           dedupeKey := some (DKey.restockK restockJobRow.id) }] ∧
      s'.books.find? (fun b => decide (b.id = 1)) =
        some { bookLow with availableCopies := bookLow.seededCopies }) ∧
    handleRestockJob restockJobRow stRestockPoor = Except.error
      { requiredCents := 700, availableCents := 600 } ∧
    handleRestockJob restockJobRow stFull = Except.ok stFull ∧
    handleRestockJob { restockJobRow with payloadBookId := some 99 } stRestock =
      Except.ok stRestock := by
  refine ⟨claim_C6.1 restockJobRow stRestock 1 bookLow rfl (by decide) (by decide)
      (by decide) (by decide), ?_, ?_, ?_⟩
  · exact claim_C6.2.1 restockJobRow stRestockPoor 1 bookLow rfl (by decide)
      (by decide) (by decide)
  · exact claim_C6.2.2.1 restockJobRow stFull 1
      { bookEmpty with availableCopies := 5 } rfl (by decide) (by decide)
  · exact claim_C6.2.2.2 { restockJobRow with payloadBookId := some 99 } stRestock 99
      rfl (by decide)

/-- C7: every job-runner transition preserves the activeKey invariant: a
claimed job is PROCESSING with its key intact; success goes COMPLETED with
activeKey = NULL, completedAt set and lastError cleared; exhausted failure
goes FAILED with activeKey = NULL; retryable failure goes back to PENDING
with the activeKey preserved and the lease released. -/
theorem claim_C7 (now : Nat) (err : String) (j j' : Job)
    (h : claimJob now j = some j') :
    JobInv j' ∧ JobInv (completeJobUpdate now j') ∧
    JobInv (handleFailureUpdate now err j') ∧
    (completeJobUpdate now j').status = JobStatus.COMPLETED ∧
    (completeJobUpdate now j').activeKey = none ∧
    (completeJobUpdate now j').completedAt = some now ∧
    (completeJobUpdate now j').lastError = none ∧
    (j'.maxAttempts ≤ j'.attempts →
      (handleFailureUpdate now err j').status = JobStatus.FAILED ∧
      (handleFailureUpdate now err j').activeKey = none) ∧
    (j'.attempts < j'.maxAttempts →
      (handleFailureUpdate now err j').status = JobStatus.PENDING ∧
      (handleFailureUpdate now err j').activeKey = j.activeKey ∧
      (handleFailureUpdate now err j').lockedAt = none) := by
  have hinv := jobInv_preserved now err j j' h
  have hcs := completeJobUpdate_spec now j'
  have hfs := handleFailureUpdate_spec now err j'
  obtain ⟨-, hak, -, -, -, -⟩ := claimJob_some now j j' h
  refine ⟨hinv.1, hinv.2.1, hinv.2.2, hcs.1, hcs.2.1, hcs.2.2.1, hcs.2.2.2.1, ?_, ?_⟩
  · intro hmax
    exact ⟨(hfs.1 hmax).1, (hfs.1 hmax).2.1⟩
  · intro hlt
    refine ⟨(hfs.2 hlt).1, ?_, (hfs.2 hlt).2.2.1⟩
    rw [(hfs.2 hlt).2.1]
    exact hak

theorem claim_C7_witness :
    JobInv claimedJob ∧ JobInv (completeJobUpdate 100 claimedJob) ∧
    JobInv (handleFailureUpdate 100 "boom" claimedJob) ∧
    (completeJobUpdate 100 claimedJob).status = JobStatus.COMPLETED ∧
    (completeJobUpdate 100 claimedJob).activeKey = none ∧
    (completeJobUpdate 100 claimedJob).completedAt = some 100 ∧
    (completeJobUpdate 100 claimedJob).lastError = none ∧
    (claimedJob.maxAttempts ≤ claimedJob.attempts →
      (handleFailureUpdate 100 "boom" claimedJob).status = JobStatus.FAILED ∧
      (handleFailureUpdate 100 "boom" claimedJob).activeKey = none) ∧
    (claimedJob.attempts < claimedJob.maxAttempts →
      (handleFailureUpdate 100 "boom" claimedJob).status = JobStatus.PENDING ∧
      (handleFailureUpdate 100 "boom" claimedJob).activeKey = pendingJob.activeKey ∧
      (handleFailureUpdate 100 "boom" claimedJob).lockedAt = none) :=
  claim_C7 100 "boom" pendingJob claimedJob (by decide)

/-- C8: for attempts >= 1 the backoff is now + min(60*2^(attempts-1), 3600)
seconds (1000 model units per second), and a retryable handler failure sets
runAt to exactly this value. -/
theorem claim_C8 (attempts now : Nat) (h : 1 ≤ attempts) :
    calculateBackoff attempts now =
      now + 1000 * min (60 * 2 ^ (attempts - 1)) 3600 ∧
    (∀ (err : String) (j : Job), j.attempts < j.maxAttempts →
      (handleFailureUpdate now err j).runAt = calculateBackoff j.attempts now) :=
  ⟨calculateBackoff_law attempts now h,
   fun err j hlt => by
     unfold handleFailureUpdate
     rw [if_neg (by omega)]
     exact retryJobUpdate_runAt now err j⟩

theorem claim_C8_witness :
    calculateBackoff 5 1000 = 1000 + 1000 * min (60 * 2 ^ (5 - 1)) 3600 ∧
    (handleFailureUpdate 1000 "boom" claimedJob).runAt =
      calculateBackoff claimedJob.attempts 1000 :=
  ⟨(claim_C8 5 1000 (by decide)).1,
   (claim_C8 5 1000 (by decide)).2 "boom" claimedJob (by decide)⟩

/-- C9: the milestone flag is monotone and one-shot: no committed
transition ever clears it; when it is already set the watcher changes
nothing; when it is unset the watcher fires exactly when the ledger sum
exceeds 200000 cents, setting the flag and appending the single milestone
email (dedupe MILESTONE:2000) and event, and otherwise changes nothing. -/
theorem claim_C9 :
    (∀ s s' : St, Step s s' → milestoneFlag s = true → milestoneFlag s' = true) ∧
    (∀ s : St, milestoneFlag s = true → (checkWalletMilestone s).2 = s) ∧
    (∀ (s : St) (w : LibraryWallet), s.wallet = some w →
      w.milestoneReached = false → WALLET_MILESTONE_CENTS < balanceCents s →
      (checkWalletMilestone s).2 =
        { s with
          wallet := some { milestoneReached := true },
          emails := s.emails ++ [{ recipient := "management@dummy-library.com",
                                   subject := "Wallet Milestone Reached",
                                   type := EmailType.MILESTONE,
                                   dedupeKey := DKey.milestoneK }],
          events := s.events ++ [{ type := "MILESTONE_EMAIL",
                                   userId := none, bookId := none, borrowId := none,
                                   purchaseId := none, jobId := none,
                                   dedupeKey := some DKey.milestoneEmailK }] }) ∧
    (∀ (s : St) (w : LibraryWallet), s.wallet = some w →
      w.milestoneReached = false → balanceCents s ≤ WALLET_MILESTONE_CENTS →
      (checkWalletMilestone s).2 = s) :=
  ⟨fun s s' hst hf => step_flag_mono hst hf,
   fun s hf => checkWalletMilestone_noop s hf,
   fun s w hw hflag hbal => checkWalletMilestone_fires s w hw hflag hbal,
   fun s w hw hflag hbal => checkWalletMilestone_below s w hw hflag hbal⟩

theorem claim_C9_witness :
    milestoneFlag (handleReminderJob pendingJob stFlagged) = true ∧
    (checkWalletMilestone stFlagged).2 = stFlagged ∧
    (checkWalletMilestone stRich).2 =
      { stRich with
        wallet := some { milestoneReached := true },
        emails := stRich.emails ++ [{ recipient := "management@dummy-library.com",
                                      subject := "Wallet Milestone Reached",
                                      type := EmailType.MILESTONE,
                                      dedupeKey := DKey.milestoneK }],
        events := stRich.events ++ [{ type := "MILESTONE_EMAIL",
                                      userId := none, bookId := none, borrowId := none,
                                      purchaseId := none, jobId := none,
                                      dedupeKey := some DKey.milestoneEmailK }] } ∧
    (checkWalletMilestone stNoCopies).2 = stNoCopies :=
  ⟨claim_C9.1 stFlagged _ (Step.reminder pendingJob stFlagged) (by decide),
   claim_C9.2.1 stFlagged (by decide),
   claim_C9.2.2.1 stRich { milestoneReached := false } (by decide) (by decide)
     (by decide),
   claim_C9.2.2.2 stNoCopies { milestoneReached := false } (by decide) (by decide)
     (by decide)⟩

/-- C10: when the requested dedupe key already exists in the ledger, both
addMovement and addMovementInTransaction insert nothing and return the
stored row unchanged, even when the requested amount, type or reason
differ, so no retry or replay can alter a recorded amount. -/
theorem claim_C10 (s : St) (d : MovementData) (k : DKey) (m : WalletMovement)
    (hk : d.dedupeKey = some k)
    (hm : s.movements.find? (fun x => decide (x.dedupeKey = some k)) = some m) :
    addMovement s d = (m, s) ∧ addMovementInTransaction s d = (m, s) :=
  addMovement_dedupe s d k m hk hm

theorem claim_C10_witness :
    addMovement stLedger replayData = (storedMovement, stLedger) ∧
    addMovementInTransaction stLedger replayData = (storedMovement, stLedger) :=
  claim_C10 stLedger replayData (DKey.buyK 5) storedMovement (by decide) (by decide)

end Kyra

